import Mathlib

/-!
Verification development for the marketing-campaign reporting pipeline in
`main.py`.  The core pipeline is embedded shallowly:

* a raw table (`RawTable`) models a pandas DataFrame: a list of column
  names and a list of rows, each row an association list from column name
  to cell value;
* a cell (`RawCell`) is a number, a string, or a missing value (NaN);
* `check_data_columns` embeds the schema resolver (main.py lines 24-57);
* `clean_and_prepare_data` embeds the normalizer (lines 59-97); records are
  processed row-wise, which is equivalent to the source's column-wise
  operations since every step up to the derived metrics acts cellwise;
* `calculate_summary_stats` embeds the aggregator (lines 99-127);
* `generate_insights` embeds the insight composer (lines 129-140).

Numbers are rationals.  pandas NaN is modelled by `Option`: a missing or
uncoercible value is `none`, and NaN-skipping sums/means (`skipna=True`,
the pandas default used by `sum`, `mean`, `agg`) sum over `filterMap`.
A pandas `float` division never divides by zero here because the guard
step leaves all denominators nonzero (proved below), so plain rational
division is faithful; the only NaN that can reach a derived field is a
null revenue, tracked by `Option` in `roas`.

The date column is carried through unchanged: `pd.to_datetime` inside
`try/except` (lines 92-95) either reparses the column or leaves it as is,
and no property below concerns dates.
-/

/-- One cell of the raw table: a numeric value (pandas int/float), a
string, or a missing value (NaN). -/
inductive RawCell where
  | num (q : ℚ)
  | str (s : String)
  | na
deriving DecidableEq

/-- One row of a DataFrame: column name to cell. -/
abbrev Row := List (String × RawCell)

/-- A DataFrame: its column names and its rows. -/
structure RawTable where
  cols : List String
  rows : List Row
deriving DecidableEq

/-- Cell of `row` in column `c` (`.na` if the column is absent; the code
only reads columns it has checked for). -/
def getCell (row : Row) (c : String) : RawCell :=
  (row.lookup c).getD .na

/-- Ordered candidate source-column names for each canonical field, in the
order the `for` loops of `check_data_columns` (main.py lines 27-55) try
them; dict insertion order is the order of those loops. -/
def candidateCols : List (String × List String) :=
  [("campaign", ["Campaign_ID", "campaign", "Campaign", "campaign_id"]),
   ("date", ["Date", "date", "timestamp", "Date_Stamp"]),
   ("impressions", ["Impressions", "impressions", "views", "Views"]),
   ("clicks", ["Clicks", "clicks", "click_count"]),
   ("spend", ["Acquisition_Cost", "Spend", "spend", "cost", "Cost"]),
   ("revenue", ["ROI", "Revenue", "revenue", "sales", "conversion_value"])]

/-- `check_data_columns` (main.py lines 24-57): for each canonical field
the first candidate present in the table wins; a field with no candidate
present is simply absent from the mapping. -/
def check_data_columns (cols : List String) : List (String × String) :=
  candidateCols.foldr (fun p acc =>
    match p.2.find? (fun c => cols.contains c) with
    | some c => (p.1, c) :: acc
    | none => acc) []

/-- One `data.rename(columns={orig: std})` step applied to a column
label. -/
def renameKey (orig std k : String) : String := if k = orig then std else k

/-- The rename loop of `clean_and_prepare_data` (main.py lines 62-63):
each mapping entry renames its source column to the canonical name, in
mapping order. -/
def renameTable (m : List (String × String)) (t : RawTable) : RawTable :=
  m.foldl (fun t p =>
    { cols := t.cols.map (renameKey p.2 p.1),
      rows := t.rows.map (fun r => r.map (fun kv => (renameKey p.2 p.1 kv.1, kv.2))) }) t

/-- Value of a digit string read left to right. -/
def digitsToNat (l : List Char) : ℕ :=
  l.foldl (fun n c => 10 * n + (c.toNat - 48)) 0

/-- Leading and trailing whitespace removed (pandas' numeric parser
ignores surrounding whitespace). -/
def trimChars (l : List Char) : List Char :=
  ((l.dropWhile Char.isWhitespace).reverse.dropWhile Char.isWhitespace).reverse

/-- Unsigned decimal literal: digits with at most one decimal point and at
least one digit overall. -/
def parseUnsignedChars (l : List Char) : Option ℚ :=
  let intPart := l.takeWhile (fun c => !(c == '.'))
  match l.dropWhile (fun c => !(c == '.')) with
  | [] =>
      if intPart.isEmpty ∨ ¬ intPart.all Char.isDigit then none
      else some (digitsToNat intPart)
  | _ :: frac =>
      if frac.contains '.' then none
      else if intPart.isEmpty ∧ frac.isEmpty then none
      else if intPart.all Char.isDigit ∧ frac.all Char.isDigit then
        some ((digitsToNat intPart : ℚ) + (digitsToNat frac : ℚ) / (10 : ℚ) ^ frac.length)
      else none

/-- Signed decimal literal. -/
def parseDecimalChars : List Char → Option ℚ
  | '-' :: rest => (parseUnsignedChars rest).map (fun q => -q)
  | '+' :: rest => parseUnsignedChars rest
  | l => parseUnsignedChars l

/-- `pd.to_numeric(s, errors='coerce')` on a string cell, restricted to
plain decimal literals: an unparseable string becomes null. -/
def parseDecimal (s : String) : Option ℚ :=
  parseDecimalChars (trimChars s.data)

/-- `pd.to_numeric(x, errors='coerce')` on a cell (main.py lines 73-78):
numbers pass through, strings are parsed, NaN stays null. -/
def toNumeric : RawCell → Option ℚ
  | .num q => some q
  | .str s => parseDecimal s
  | .na => none

/-- The currency strip of main.py line 71: every `$` and every `,`
character removed from the textual form of a spend cell. -/
def stripMoneyChars (l : List Char) : List Char :=
  l.filter (fun c => !(c == '$') && !(c == ','))

/-- Spend coercion (main.py lines 71 and 75): `astype(str)`, strip `$`
and `,`, then `to_numeric`.  A numeric cell renders with neither `$` nor
`,` and re-parses to itself, so it passes through; NaN renders as
`"nan"`, which `to_numeric` coerces back to null. -/
def coerceSpendCell : RawCell → Option ℚ
  | .num q => some q
  | .str s => parseDecimal (String.mk (stripMoneyChars s.data))
  | .na => none

/-- Grouping key used by `groupby('campaign')`: the campaign cell's value
(string cells are used as they are; the examples and data all carry
string campaign identifiers). -/
def cellKey : RawCell → String
  | .str s => s
  | .num q => toString q
  | .na => "nan"

/-- One row of the canonical table produced by `clean_and_prepare_data`. -/
structure CampaignRecord where
  campaign : String
  date : RawCell
  impressions : ℚ
  clicks : ℚ
  spend : ℚ
  revenue : Option ℚ
  ctr : ℚ
  cpc : ℚ
  roas : Option ℚ
deriving DecidableEq

/-- Row-wise body of `clean_and_prepare_data` after the rename and the
required-column check (main.py lines 71-90): coerce impressions, clicks
and spend; take mapped revenue or synthesize `spend * 2.5` (line 80, from
the coerced, pre-guard spend); drop the row if impressions, clicks or
spend is null (line 82); apply the degenerate-value guard (lines 84-86);
derive `ctr`, `cpc`, `roas` (lines 88-90), `roas` being null exactly when
revenue is null. -/
def prepRow (hasRevenueCol : Bool) (row : Row) : Option CampaignRecord :=
  match toNumeric (getCell row "impressions"), toNumeric (getCell row "clicks"),
        coerceSpendCell (getCell row "spend") with
  | some i, some c, some s =>
      let revenue : Option ℚ :=
        if hasRevenueCol then toNumeric (getCell row "revenue") else some (s * (5/2))
      let i' := if i = 0 then 1 else i
      let c' := if c = 0 then 1 else c
      let s' := if s = 0 then 1/100 else s
      some { campaign := cellKey (getCell row "campaign"), date := getCell row "date",
             impressions := i', clicks := c', spend := s', revenue := revenue,
             ctr := c' / i', cpc := s' / c', roas := revenue.map (fun r => r / s') }
  | _, _, _ => none

/-- The required canonical columns, in the order main.py line 65 lists
them. -/
def requiredCols : List String := ["campaign", "date", "impressions", "clicks", "spend"]

/-- `clean_and_prepare_data` (main.py lines 59-97): rename mapped columns,
abort on the first missing required column (lines 65-69, `sys.exit`
modelled as `Except.error` carrying the printed diagnostic), then build
the canonical table row-wise. -/
def clean_and_prepare_data (raw : RawTable) (column_map : List (String × String)) :
    Except String (List CampaignRecord) :=
  match requiredCols.find? (fun c => !((renameTable column_map raw).cols.contains c)) with
  | some c => .error ("ERROR: Missing required column " ++ c)
  | none =>
      .ok ((renameTable column_map raw).rows.filterMap
        (prepRow ((renameTable column_map raw).cols.contains "revenue")))

/-- Lexicographic comparison of strings as character lists (by code
point), the order pandas uses to sort string group keys. -/
def lexLe : List Char → List Char → Bool
  | [], _ => true
  | _ :: _, [] => false
  | a :: as, b :: bs => if a < b then true else if b < a then false else lexLe as bs

/-- String comparison via `lexLe`. -/
def strLe (a b : String) : Bool := lexLe a.data b.data

/-- The propositional form of `strLe`, the sort key order of
`groupby('campaign')` (pandas sorts group keys ascending by default). -/
def sLe (a b : String) : Prop := strLe a b = true

instance : DecidableRel sLe :=
  fun a b => inferInstanceAs (Decidable (strLe a b = true))

/-- Distinct campaign identifiers in order of first appearance in the
canonical table. -/
def campaignsInOrder (recs : List CampaignRecord) : List String :=
  recs.foldl (fun acc r => if acc.contains r.campaign then acc else acc ++ [r.campaign]) []

/-- The group keys of `data.groupby('campaign')` (main.py line 109):
distinct campaigns, sorted ascending. -/
def sortedCampaigns (recs : List CampaignRecord) : List String :=
  List.insertionSort sLe (campaignsInOrder recs)

/-- Round to integer, half to even — the rounding `DataFrame.round` uses
(numpy rounding). -/
def roundHalfEven (x : ℚ) : ℤ :=
  if x - ⌊x⌋ < 1/2 then ⌊x⌋
  else if (1 : ℚ)/2 < x - ⌊x⌋ then ⌊x⌋ + 1
  else if ⌊x⌋ % 2 = 0 then ⌊x⌋ else ⌊x⌋ + 1

/-- `.round(2)` on one value (main.py line 113). -/
def round2 (x : ℚ) : ℚ := (roundHalfEven (x * 100) : ℚ) / 100

/-- Per-campaign rollup: `agg({'roas': 'mean', 'revenue': 'sum',
'spend': 'sum'}).round(2)` (main.py lines 109-113).  `roas` is `none`
when every roas in the group is NaN (pandas mean skips NaN and yields
NaN on an empty rest); sums skip NaN, an all-NaN sum being 0. -/
structure CampaignRollup where
  roas : Option ℚ
  revenue : ℚ
  spend : ℚ
deriving DecidableEq

/-- The rollup of campaign `k` over the canonical table. -/
def rollupFor (recs : List CampaignRecord) (k : String) : CampaignRollup :=
  let group := recs.filter (fun r => r.campaign == k)
  let roasVals := group.filterMap (fun r => r.roas)
  { roas := if roasVals.length = 0 then none
            else some (round2 (roasVals.sum / roasVals.length)),
    revenue := round2 (group.filterMap (fun r => r.revenue)).sum,
    spend := round2 (group.map (fun r => r.spend)).sum }

/-- `campaign_stats` (main.py lines 109-113): one row per distinct
campaign, indexed by the sorted campaign keys. -/
def campaign_stats (recs : List CampaignRecord) : List (String × CampaignRollup) :=
  (sortedCampaigns recs).map (fun k => (k, rollupFor recs k))

/-- The rows of `campaign_stats` that carry a non-NaN mean roas, with
that value; `idxmax`/`idxmin` skip NaN entries. -/
def roasPairs (stats : List (String × CampaignRollup)) : List (String × ℚ) :=
  stats.filterMap (fun p => p.2.roas.map (fun v => (p.1, v)))

/-- `Series.idxmax`: the first index (in frame order) whose value attains
the maximum. -/
def firstArgmax : List (String × ℚ) → Option (String × ℚ)
  | [] => none
  | p :: l =>
      match firstArgmax l with
      | none => some p
      | some q => if p.2 < q.2 then some q else some p

/-- `Series.idxmin`: the first index whose value attains the minimum. -/
def firstArgmin : List (String × ℚ) → Option (String × ℚ)
  | [] => none
  | p :: l =>
      match firstArgmin l with
      | none => some p
      | some q => if q.2 < p.2 then some q else some p

/-- The order realized by `campaign_stats.nlargest(5, 'revenue')`:
revenue descending; on equal revenue the earlier frame row wins
(`keep='first'`), and frame rows are in ascending key order, so ties go
to the lexicographically smaller campaign. -/
def topRel (a b : String × CampaignRollup) : Prop :=
  b.2.revenue < a.2.revenue ∨ (a.2.revenue = b.2.revenue ∧ sLe a.1 b.1)

instance : DecidableRel topRel :=
  fun a b =>
    inferInstanceAs (Decidable (b.2.revenue < a.2.revenue ∨
      (a.2.revenue = b.2.revenue ∧ sLe a.1 b.1)))

/-- `nlargest(5, 'revenue')` (main.py line 124). -/
def top5 (stats : List (String × CampaignRollup)) : List (String × CampaignRollup) :=
  (List.insertionSort topRel stats).take 5

/-- `int(x)` on a float: truncation toward zero. -/
def truncInt (x : ℚ) : ℤ := if x < 0 then -⌊-x⌋ else ⌊x⌋

/-- The summary dictionary built by `calculate_summary_stats` (main.py
lines 99-127).  Keys that the code only conditionally inserts (the
best/worst/top-5 block, lines 115-125) are `Option`s, `none` meaning the
key is absent.  The averages are `none` when pandas would produce NaN
(mean of an empty column). -/
structure SummaryStatistics where
  total_impressions : ℤ
  total_clicks : ℤ
  total_spend : ℚ
  total_revenue : ℚ
  avg_ctr : Option ℚ
  avg_cpc : Option ℚ
  avg_roas : Option ℚ
  best_campaign : Option String
  best_roas : Option ℚ
  worst_campaign : Option String
  worst_roas : Option ℚ
  top_5_campaigns : Option (List (String × CampaignRollup))
deriving DecidableEq

/-- `calculate_summary_stats` (main.py lines 99-127).  Totals sum the
canonical columns (NaN-skipping for revenue); averages are unweighted
per-record means; the best/worst/top-5 block runs only when
`campaign_stats` is nonempty.  (When `campaign_stats` is nonempty but
every mean roas is NaN, `idxmax` raises; that corner is unreachable in
the claims below and is modelled as the fields staying absent.) -/
def calculate_summary_stats (recs : List CampaignRecord) : SummaryStatistics :=
  let stats := campaign_stats recs
  let pairs := roasPairs stats
  let roasVals := recs.filterMap (fun r => r.roas)
  { total_impressions := truncInt (recs.map (fun r => r.impressions)).sum
    total_clicks := truncInt (recs.map (fun r => r.clicks)).sum
    total_spend := (recs.map (fun r => r.spend)).sum
    total_revenue := (recs.filterMap (fun r => r.revenue)).sum
    avg_ctr := if recs.length = 0 then none
               else some ((recs.map (fun r => r.ctr)).sum / recs.length)
    avg_cpc := if recs.length = 0 then none
               else some ((recs.map (fun r => r.cpc)).sum / recs.length)
    avg_roas := if roasVals.length = 0 then none
                else some (roasVals.sum / roasVals.length)
    best_campaign := if stats.isEmpty then none else (firstArgmax pairs).map (fun p => p.1)
    best_roas := if stats.isEmpty then none else (firstArgmax pairs).map (fun p => p.2)
    worst_campaign := if stats.isEmpty then none else (firstArgmin pairs).map (fun p => p.1)
    worst_roas := if stats.isEmpty then none else (firstArgmin pairs).map (fun p => p.2)
    top_5_campaigns := if stats.isEmpty then none else some (top5 stats) }

/-- Thousands grouping of a digit list given least-significant first. -/
def digitsGrouped : List Char → List Char
  | a :: b :: c :: d :: rest => a :: b :: c :: ',' :: digitsGrouped (d :: rest)
  | l => l

/-- A natural number with thousands separators (Python `:,` format). -/
def natThousands (n : ℕ) : String :=
  String.mk (digitsGrouped (Nat.toDigits 10 n).reverse).reverse

/-- An integer with thousands separators. -/
def intThousands (n : ℤ) : String :=
  (if n < 0 then "-" else "") ++ natThousands n.natAbs

/-- Two-digit zero-padded fraction part. -/
def pad2 (n : ℕ) : String := if n < 10 then "0" ++ toString n else toString n

/-- Python `:.2f` formatting of a number. -/
def fmtFixed2 (x : ℚ) : String :=
  let n := roundHalfEven (x * 100)
  (if n < 0 then "-" else "") ++ toString (n.natAbs / 100) ++ "." ++ pad2 (n.natAbs % 100)

/-- Python `:,.2f` formatting of a number. -/
def fmtThousands2 (x : ℚ) : String :=
  let n := roundHalfEven (x * 100)
  (if n < 0 then "-" else "") ++ natThousands (n.natAbs / 100) ++ "." ++ pad2 (n.natAbs % 100)

/-- `:.2f` of a possibly-NaN value (Python renders NaN as `nan`). -/
def fmtOpt2 (o : Option ℚ) : String :=
  match o with
  | none => "nan"
  | some x => fmtFixed2 x

/-- `:.2f` of a possibly-NaN value scaled to percent. -/
def fmtOptPct (o : Option ℚ) : String :=
  match o with
  | none => "nan"
  | some x => fmtFixed2 (x * 100)

/-- `generate_insights` (main.py lines 129-140): the fixed list of seven
formatted statements.  Reading `best_campaign`, `best_roas`,
`worst_campaign` or `worst_roas` from a summary that lacks them is a
`KeyError`, modelled as `none`.  (The ASCII quotes the f-strings put
around the campaign identifiers are omitted from the rendering.) -/
def generate_insights (s : SummaryStatistics) : Option (List String) :=
  match s.best_campaign, s.best_roas, s.worst_campaign, s.worst_roas with
  | some bc, some br, some wc, some wr =>
      some
        ["Our campaigns delivered " ++ intThousands s.total_impressions ++
           " impressions and " ++ intThousands s.total_clicks ++ " clicks.",
         "Total ad spend was $" ++ fmtThousands2 s.total_spend ++ ", generating $" ++
           fmtThousands2 s.total_revenue ++ " in revenue.",
         "The average click-through rate was " ++ fmtOptPct s.avg_ctr ++ "%.",
         "Each click cost $" ++ fmtOpt2 s.avg_cpc ++ ".",
         "The best campaign was " ++ bc ++ " with ROAS " ++ fmtFixed2 br ++ ".",
         "The lowest performing campaign was " ++ wc ++ " with ROAS " ++ fmtFixed2 wr ++ ".",
         "Overall ROAS was " ++ fmtOpt2 s.avg_roas ++ "."]
  | _, _, _, _ => none

/-! ### Concrete tables used by the scenarios and counterexamples

`mkRow`/`mkRowR` build a row that already carries the canonical column
names (the shape every row has after the rename step); tables under
original column names appear only where a scenario prescribes them. -/

/-- A canonical-named row without a revenue column. -/
def mkRow (camp date imp clk spd : RawCell) : Row :=
  [("campaign", camp), ("date", date), ("impressions", imp), ("clicks", clk), ("spend", spd)]

/-- A canonical-named row with a revenue column. -/
def mkRowR (camp date imp clk spd rev : RawCell) : Row :=
  [("campaign", camp), ("date", date), ("impressions", imp), ("clicks", clk), ("spend", spd),
   ("revenue", rev)]

/-- The canonical five-column header. -/
def stdCols : List String := ["campaign", "date", "impressions", "clicks", "spend"]

/-- The canonical six-column header (revenue mapped). -/
def stdColsR : List String := stdCols ++ ["revenue"]

/-- Scenario A input: columns `Campaign, Date, Impressions, Clicks,
Spend`, one row `(CampaignX, 2024-01-01, 100, 10, 50)`, no revenue
column. -/
def scenarioATable : RawTable :=
  { cols := ["Campaign", "Date", "Impressions", "Clicks", "Spend"],
    rows := [[("Campaign", .str "CampaignX"), ("Date", .str "2024-01-01"),
              ("Impressions", .num 100), ("Clicks", .num 10), ("Spend", .num 50)]] }

/-- The canonical record Scenario A normalizes to. -/
def scenarioARec : CampaignRecord :=
  { campaign := "CampaignX", date := .str "2024-01-01", impressions := 100, clicks := 10,
    spend := 50, revenue := some 125, ctr := 1/10, cpc := 5, roas := some (5/2) }

/-- Scenario E input: a spend cell formatted as `"$1,250.00"`. -/
def scenarioETable : RawTable :=
  { cols := stdCols,
    rows := [mkRow (.str "C1") (.str "2024-01-01") (.num 100) (.num 10) (.str "$1,250.00")] }

/-- The canonical record Scenario E normalizes to. -/
def scenarioERec : CampaignRecord :=
  { campaign := "C1", date := .str "2024-01-01", impressions := 100, clicks := 10,
    spend := 1250, revenue := some 3125, ctr := 1/10, cpc := 125, roas := some (5/2) }

/-- C1 counterexample input: a retained row whose spend coerces to
`0.005`, nonzero but below the claimed `0.01` bound. -/
def smallSpendTable : RawTable :=
  { cols := stdCols,
    rows := [mkRow (.str "A") (.str "2024-01-01") (.num 1) (.num 1) (.str "0.005")] }

/-- The canonical record `smallSpendTable` normalizes to: spend `1/200`,
untouched by the guard because it is not exactly zero. -/
def smallSpendRec : CampaignRecord :=
  { campaign := "A", date := .str "2024-01-01", impressions := 1, clicks := 1,
    spend := 1/200, revenue := some (1/80), ctr := 1, cpc := 1/200, roas := some (5/2) }

/-- C2/C10 counterexample input: a mapped revenue column where one row's
revenue value is non-numeric. -/
def badRevenueTable : RawTable :=
  { cols := stdColsR,
    rows := [mkRowR (.str "A") (.str "d1") (.num 100) (.num 10) (.num 50) (.num 100),
             mkRowR (.str "B") (.str "d2") (.num 100) (.num 10) (.num 50) (.str "abc")] }

/-- First `badRevenueTable` record: numeric revenue 100, roas 2. -/
def badRevenueRec1 : CampaignRecord :=
  { campaign := "A", date := .str "d1", impressions := 100, clicks := 10,
    spend := 50, revenue := some 100, ctr := 1/10, cpc := 5, roas := some 2 }

/-- Second `badRevenueTable` record: retained with null revenue and null
(NaN) roas. -/
def badRevenueRec2 : CampaignRecord :=
  { campaign := "B", date := .str "d2", impressions := 100, clicks := 10,
    spend := 50, revenue := none, ctr := 1/10, cpc := 5, roas := none }

/-- C3 counterexample input: campaign `B` appears first, campaign `A`
second, both with mean roas 2. -/
def roasTieTable : RawTable :=
  { cols := stdColsR,
    rows := [mkRowR (.str "B") (.str "d1") (.num 100) (.num 10) (.num 100) (.num 200),
             mkRowR (.str "A") (.str "d2") (.num 100) (.num 10) (.num 50) (.num 100)] }

/-- First `roasTieTable` record (campaign B, roas 2). -/
def roasTieRecB : CampaignRecord :=
  { campaign := "B", date := .str "d1", impressions := 100, clicks := 10,
    spend := 100, revenue := some 200, ctr := 1/10, cpc := 10, roas := some 2 }

/-- Second `roasTieTable` record (campaign A, roas 2). -/
def roasTieRecA : CampaignRecord :=
  { campaign := "A", date := .str "d2", impressions := 100, clicks := 10,
    spend := 50, revenue := some 100, ctr := 1/10, cpc := 5, roas := some 2 }

/-- C4 counterexample input: campaign `B` appears first, campaign `A`
second, both with summed revenue 100. -/
def revenueTieTable : RawTable :=
  { cols := stdColsR,
    rows := [mkRowR (.str "B") (.str "d1") (.num 100) (.num 10) (.num 100) (.num 100),
             mkRowR (.str "A") (.str "d2") (.num 100) (.num 10) (.num 50) (.num 100)] }

/-- First `revenueTieTable` record (campaign B, revenue 100, roas 1). -/
def revenueTieRecB : CampaignRecord :=
  { campaign := "B", date := .str "d1", impressions := 100, clicks := 10,
    spend := 100, revenue := some 100, ctr := 1/10, cpc := 10, roas := some 1 }

/-- Second `revenueTieTable` record (campaign A, revenue 100, roas 2). -/
def revenueTieRecA : CampaignRecord :=
  { campaign := "A", date := .str "d2", impressions := 100, clicks := 10,
    spend := 50, revenue := some 100, ctr := 1/10, cpc := 5, roas := some 2 }

/-- C1/C2 witness input: a row with a true zero in impressions and in
spend, exercising the degenerate-value guard. -/
def guardWitnessTable : RawTable :=
  { cols := stdCols,
    rows := [mkRow (.str "W") (.str "2024-01-01") (.num 0) (.num 5) (.num 0)] }

/-- The canonical record `guardWitnessTable` normalizes to: impressions
`0` became `1`, spend `0` became `0.01`; revenue was synthesized from the
pre-guard spend, so it is `0`. -/
def guardWitnessRec : CampaignRecord :=
  { campaign := "W", date := .str "2024-01-01", impressions := 1, clicks := 5,
    spend := 1/100, revenue := some 0, ctr := 5, cpc := 1/500, roas := some 0 }

/-- Scenario F row: a non-numeric clicks value. -/
def badClicksRow : Row :=
  mkRow (.str "F") (.str "2024-01-01") (.num 100) (.str "oops") (.num 50)

/-- C9 witness input: a table whose columns lack `date`. -/
def missingDateTable : RawTable :=
  { cols := ["campaign", "impressions", "clicks", "spend"], rows := [] }

/-- Modelled from the claim's wording for C10: a global revenue total in
which every record's revenue value participates, a null (NaN) revenue
poisoning the whole total, as IEEE NaN would.  The code instead computes
the NaN-skipping pandas sum; comparing the two refutes the participation
clause. -/
def totalRevenueAllRecords (recs : List CampaignRecord) : Option ℚ :=
  recs.foldr (fun r acc =>
    match r.revenue, acc with
    | some v, some a => some (v + a)
    | _, _ => none) (some 0)

/-! ### Helper lemmas -/

theorem getCell_mkRow_campaign (c d i k s : RawCell) : getCell (mkRow c d i k s) "campaign" = c := rfl

theorem getCell_mkRow_date (c d i k s : RawCell) : getCell (mkRow c d i k s) "date" = d := rfl

theorem getCell_mkRow_impressions (c d i k s : RawCell) :
    getCell (mkRow c d i k s) "impressions" = i := rfl

theorem getCell_mkRow_clicks (c d i k s : RawCell) : getCell (mkRow c d i k s) "clicks" = k := rfl

theorem getCell_mkRow_spend (c d i k s : RawCell) : getCell (mkRow c d i k s) "spend" = s := rfl

theorem getCell_mkRow_revenue (c d i k s : RawCell) :
    getCell (mkRow c d i k s) "revenue" = .na := rfl

theorem getCell_mkRowR_campaign (c d i k s r : RawCell) :
    getCell (mkRowR c d i k s r) "campaign" = c := rfl

theorem getCell_mkRowR_date (c d i k s r : RawCell) : getCell (mkRowR c d i k s r) "date" = d := rfl

theorem getCell_mkRowR_impressions (c d i k s r : RawCell) :
    getCell (mkRowR c d i k s r) "impressions" = i := rfl

theorem getCell_mkRowR_clicks (c d i k s r : RawCell) :
    getCell (mkRowR c d i k s r) "clicks" = k := rfl

theorem getCell_mkRowR_spend (c d i k s r : RawCell) :
    getCell (mkRowR c d i k s r) "spend" = s := rfl

theorem getCell_mkRowR_revenue (c d i k s r : RawCell) :
    getCell (mkRowR c d i k s r) "revenue" = r := rfl

/-- Surviving-row shape of `prepRow`: when all three coercions succeed the
record is exactly the guarded and derived row. -/
theorem prepRow_some (hasRev : Bool) (row : Row) {i c s : ℚ}
    (hi : toNumeric (getCell row "impressions") = some i)
    (hc : toNumeric (getCell row "clicks") = some c)
    (hs : coerceSpendCell (getCell row "spend") = some s) :
    prepRow hasRev row = some
      { campaign := cellKey (getCell row "campaign"), date := getCell row "date",
        impressions := if i = 0 then 1 else i, clicks := if c = 0 then 1 else c,
        spend := if s = 0 then 1/100 else s,
        revenue := if hasRev then toNumeric (getCell row "revenue") else some (s * (5/2)),
        ctr := (if c = 0 then 1 else c) / (if i = 0 then 1 else i),
        cpc := (if s = 0 then 1/100 else s) / (if c = 0 then 1 else c),
        roas := (if hasRev then toNumeric (getCell row "revenue") else some (s * (5/2))).map
          (fun r => r / (if s = 0 then 1/100 else s)) } := by
  unfold prepRow
  rw [hi, hc, hs]

/-- Inversion of `prepRow`: a produced record determines successful
coercions and its own field values. -/
theorem prepRow_some_inv {hasRev : Bool} {row : Row} {rec : CampaignRecord}
    (h : prepRow hasRev row = some rec) :
    ∃ i c s, toNumeric (getCell row "impressions") = some i ∧
      toNumeric (getCell row "clicks") = some c ∧
      coerceSpendCell (getCell row "spend") = some s ∧
      rec =
        { campaign := cellKey (getCell row "campaign"), date := getCell row "date",
          impressions := if i = 0 then 1 else i, clicks := if c = 0 then 1 else c,
          spend := if s = 0 then 1/100 else s,
          revenue := if hasRev then toNumeric (getCell row "revenue") else some (s * (5/2)),
          ctr := (if c = 0 then 1 else c) / (if i = 0 then 1 else i),
          cpc := (if s = 0 then 1/100 else s) / (if c = 0 then 1 else c),
          roas := (if hasRev then toNumeric (getCell row "revenue") else some (s * (5/2))).map
            (fun r => r / (if s = 0 then 1/100 else s)) } := by
  rcases hI : toNumeric (getCell row "impressions") with _ | i <;>
    rcases hC : toNumeric (getCell row "clicks") with _ | c <;>
      rcases hS : coerceSpendCell (getCell row "spend") with _ | s <;>
        rw [prepRow, hI, hC, hS] at h <;> simp only [reduceCtorEq] at h
  exact ⟨i, c, s, rfl, rfl, rfl, (Option.some.injEq _ _ ▸ h).symm⟩

/-- A row is dropped exactly when one of impressions, clicks, spend fails
coercion. -/
theorem prepRow_none_iff (hasRev : Bool) (row : Row) :
    prepRow hasRev row = none ↔
      toNumeric (getCell row "impressions") = none ∨
      toNumeric (getCell row "clicks") = none ∨
      coerceSpendCell (getCell row "spend") = none := by
  rcases hI : toNumeric (getCell row "impressions") with _ | i <;>
    rcases hC : toNumeric (getCell row "clicks") with _ | c <;>
      rcases hS : coerceSpendCell (getCell row "spend") with _ | s <;>
        rw [prepRow, hI, hC, hS] <;> simp

/-- When every required column is present the normalizer returns the
filterMap of the renamed rows. -/
theorem clean_ok (raw : RawTable) (m : List (String × String))
    (h : ∀ c ∈ requiredCols, c ∈ (renameTable m raw).cols) :
    clean_and_prepare_data raw m =
      .ok ((renameTable m raw).rows.filterMap
        (prepRow ((renameTable m raw).cols.contains "revenue"))) := by
  unfold clean_and_prepare_data
  have hf : requiredCols.find? (fun c => !((renameTable m raw).cols.contains c)) = none := by
    rw [List.find?_eq_none]
    intro c hc
    simpa using h c hc
  rw [hf]

/-- When a required column is missing (the `find?` picking the first such,
as the `for` loop does) the normalizer aborts naming it. -/
theorem clean_error (raw : RawTable) (m : List (String × String)) (c : String)
    (h : requiredCols.find? (fun c => !((renameTable m raw).cols.contains c)) = some c) :
    clean_and_prepare_data raw m = .error ("ERROR: Missing required column " ++ c) := by
  unfold clean_and_prepare_data
  rw [h]

theorem filterMap_one {f : Row → Option CampaignRecord} {row : Row} {rec : CampaignRecord}
    (h : f row = some rec) : [row].filterMap f = [rec] := by
  simp [h]

theorem filterMap_two {f : Row → Option CampaignRecord} {r1 r2 : Row}
    {rec1 rec2 : CampaignRecord} (h1 : f r1 = some rec1) (h2 : f r2 = some rec2) :
    [r1, r2].filterMap f = [rec1, rec2] := by
  simp [h1, h2]

theorem prepRow_scenarioA :
    prepRow false
      (mkRow (.str "CampaignX") (.str "2024-01-01") (.num 100) (.num 10) (.num 50)) =
      some scenarioARec := by
  rw [prepRow_some false
    (mkRow (.str "CampaignX") (.str "2024-01-01") (.num 100) (.num 10) (.num 50))
    (i := 100) (c := 10) (s := 50) rfl rfl rfl]
  norm_num [scenarioARec, cellKey, getCell_mkRow_campaign, getCell_mkRow_date,
    CampaignRecord.mk.injEq]

theorem clean_scenarioA :
    clean_and_prepare_data scenarioATable (check_data_columns scenarioATable.cols) =
      .ok [scenarioARec] := by
  have hren : renameTable (check_data_columns scenarioATable.cols) scenarioATable =
      { cols := stdCols,
        rows := [mkRow (.str "CampaignX") (.str "2024-01-01") (.num 100) (.num 10) (.num 50)] } := by
    decide
  have hok := clean_ok scenarioATable (check_data_columns scenarioATable.cols)
    (by rw [hren]; decide)
  rw [hren, show ((RawTable.mk stdCols _).cols.contains "revenue") = false from rfl,
    filterMap_one prepRow_scenarioA] at hok
  exact hok

theorem coerceSpend_scenarioE : coerceSpendCell (.str "$1,250.00") = some 1250 := by
  simp [coerceSpendCell, stripMoneyChars, parseDecimal, trimChars, parseDecimalChars,
    parseUnsignedChars, digitsToNat]

theorem prepRow_scenarioE :
    prepRow false (mkRow (.str "C1") (.str "2024-01-01") (.num 100) (.num 10)
      (.str "$1,250.00")) = some scenarioERec := by
  rw [prepRow_some false
    (mkRow (.str "C1") (.str "2024-01-01") (.num 100) (.num 10) (.str "$1,250.00"))
    (i := 100) (c := 10) (s := 1250) rfl rfl coerceSpend_scenarioE]
  norm_num [scenarioERec, cellKey, getCell_mkRow_campaign, getCell_mkRow_date,
    CampaignRecord.mk.injEq]

theorem clean_scenarioE :
    clean_and_prepare_data scenarioETable (check_data_columns scenarioETable.cols) =
      .ok [scenarioERec] := by
  have hren : renameTable (check_data_columns scenarioETable.cols) scenarioETable =
      scenarioETable := by decide
  have hok := clean_ok scenarioETable (check_data_columns scenarioETable.cols)
    (by rw [hren]; decide)
  rw [hren, show (scenarioETable.cols.contains "revenue") = false from rfl,
    show scenarioETable.rows =
      [mkRow (.str "C1") (.str "2024-01-01") (.num 100) (.num 10) (.str "$1,250.00")] from rfl,
    filterMap_one prepRow_scenarioE] at hok
  exact hok

theorem coerceSpend_small : coerceSpendCell (.str "0.005") = some (1/200) := by
  simp [coerceSpendCell, stripMoneyChars, parseDecimal, trimChars, parseDecimalChars,
    parseUnsignedChars, digitsToNat]
  norm_num

theorem prepRow_smallSpend :
    prepRow false (mkRow (.str "A") (.str "2024-01-01") (.num 1) (.num 1) (.str "0.005")) =
      some smallSpendRec := by
  rw [prepRow_some false
    (mkRow (.str "A") (.str "2024-01-01") (.num 1) (.num 1) (.str "0.005"))
    (i := 1) (c := 1) (s := 1/200) rfl rfl coerceSpend_small]
  norm_num [smallSpendRec, cellKey, getCell_mkRow_campaign, getCell_mkRow_date,
    CampaignRecord.mk.injEq]

theorem clean_smallSpend :
    clean_and_prepare_data smallSpendTable (check_data_columns smallSpendTable.cols) =
      .ok [smallSpendRec] := by
  have hren : renameTable (check_data_columns smallSpendTable.cols) smallSpendTable =
      smallSpendTable := by decide
  have hok := clean_ok smallSpendTable (check_data_columns smallSpendTable.cols)
    (by rw [hren]; decide)
  rw [hren, show (smallSpendTable.cols.contains "revenue") = false from rfl,
    show smallSpendTable.rows =
      [mkRow (.str "A") (.str "2024-01-01") (.num 1) (.num 1) (.str "0.005")] from rfl,
    filterMap_one prepRow_smallSpend] at hok
  exact hok

theorem prepRow_guardWitness :
    prepRow false (mkRow (.str "W") (.str "2024-01-01") (.num 0) (.num 5) (.num 0)) =
      some guardWitnessRec := by
  rw [prepRow_some false
    (mkRow (.str "W") (.str "2024-01-01") (.num 0) (.num 5) (.num 0))
    (i := 0) (c := 5) (s := 0) rfl rfl rfl]
  norm_num [guardWitnessRec, cellKey, getCell_mkRow_campaign, getCell_mkRow_date,
    CampaignRecord.mk.injEq]

theorem clean_guardWitness :
    clean_and_prepare_data guardWitnessTable (check_data_columns guardWitnessTable.cols) =
      .ok [guardWitnessRec] := by
  have hren : renameTable (check_data_columns guardWitnessTable.cols) guardWitnessTable =
      guardWitnessTable := by decide
  have hok := clean_ok guardWitnessTable (check_data_columns guardWitnessTable.cols)
    (by rw [hren]; decide)
  rw [hren, show (guardWitnessTable.cols.contains "revenue") = false from rfl,
    show guardWitnessTable.rows =
      [mkRow (.str "W") (.str "2024-01-01") (.num 0) (.num 5) (.num 0)] from rfl,
    filterMap_one prepRow_guardWitness] at hok
  exact hok

theorem prepRow_badRevenue1 :
    prepRow true (mkRowR (.str "A") (.str "d1") (.num 100) (.num 10) (.num 50) (.num 100)) =
      some badRevenueRec1 := by
  rw [prepRow_some true
    (mkRowR (.str "A") (.str "d1") (.num 100) (.num 10) (.num 50) (.num 100))
    (i := 100) (c := 10) (s := 50) rfl rfl rfl]
  norm_num [badRevenueRec1, cellKey, getCell_mkRowR_campaign, getCell_mkRowR_date,
    getCell_mkRowR_revenue, toNumeric, CampaignRecord.mk.injEq]

theorem toNumeric_abc : toNumeric (.str "abc") = none := by
  simp [toNumeric, parseDecimal, trimChars, parseDecimalChars, parseUnsignedChars]

theorem prepRow_badRevenue2 :
    prepRow true (mkRowR (.str "B") (.str "d2") (.num 100) (.num 10) (.num 50) (.str "abc")) =
      some badRevenueRec2 := by
  rw [prepRow_some true
    (mkRowR (.str "B") (.str "d2") (.num 100) (.num 10) (.num 50) (.str "abc"))
    (i := 100) (c := 10) (s := 50) rfl rfl rfl]
  norm_num [badRevenueRec2, cellKey, getCell_mkRowR_campaign, getCell_mkRowR_date,
    getCell_mkRowR_revenue, toNumeric_abc, CampaignRecord.mk.injEq]

theorem clean_badRevenue :
    clean_and_prepare_data badRevenueTable (check_data_columns badRevenueTable.cols) =
      .ok [badRevenueRec1, badRevenueRec2] := by
  have hren : renameTable (check_data_columns badRevenueTable.cols) badRevenueTable =
      badRevenueTable := by decide
  have hok := clean_ok badRevenueTable (check_data_columns badRevenueTable.cols)
    (by rw [hren]; decide)
  rw [hren, show (badRevenueTable.cols.contains "revenue") = true from rfl,
    show badRevenueTable.rows =
      [mkRowR (.str "A") (.str "d1") (.num 100) (.num 10) (.num 50) (.num 100),
       mkRowR (.str "B") (.str "d2") (.num 100) (.num 10) (.num 50) (.str "abc")] from rfl,
    filterMap_two prepRow_badRevenue1 prepRow_badRevenue2] at hok
  exact hok

theorem prepRow_roasTieB :
    prepRow true (mkRowR (.str "B") (.str "d1") (.num 100) (.num 10) (.num 100) (.num 200)) =
      some roasTieRecB := by
  rw [prepRow_some true
    (mkRowR (.str "B") (.str "d1") (.num 100) (.num 10) (.num 100) (.num 200))
    (i := 100) (c := 10) (s := 100) rfl rfl rfl]
  norm_num [roasTieRecB, cellKey, getCell_mkRowR_campaign, getCell_mkRowR_date,
    getCell_mkRowR_revenue, toNumeric, CampaignRecord.mk.injEq]

theorem prepRow_roasTieA :
    prepRow true (mkRowR (.str "A") (.str "d2") (.num 100) (.num 10) (.num 50) (.num 100)) =
      some roasTieRecA := by
  rw [prepRow_some true
    (mkRowR (.str "A") (.str "d2") (.num 100) (.num 10) (.num 50) (.num 100))
    (i := 100) (c := 10) (s := 50) rfl rfl rfl]
  norm_num [roasTieRecA, cellKey, getCell_mkRowR_campaign, getCell_mkRowR_date,
    getCell_mkRowR_revenue, toNumeric, CampaignRecord.mk.injEq]

theorem clean_roasTie :
    clean_and_prepare_data roasTieTable (check_data_columns roasTieTable.cols) =
      .ok [roasTieRecB, roasTieRecA] := by
  have hren : renameTable (check_data_columns roasTieTable.cols) roasTieTable =
      roasTieTable := by decide
  have hok := clean_ok roasTieTable (check_data_columns roasTieTable.cols)
    (by rw [hren]; decide)
  rw [hren, show (roasTieTable.cols.contains "revenue") = true from rfl,
    show roasTieTable.rows =
      [mkRowR (.str "B") (.str "d1") (.num 100) (.num 10) (.num 100) (.num 200),
       mkRowR (.str "A") (.str "d2") (.num 100) (.num 10) (.num 50) (.num 100)] from rfl,
    filterMap_two prepRow_roasTieB prepRow_roasTieA] at hok
  exact hok

theorem prepRow_revenueTieB :
    prepRow true (mkRowR (.str "B") (.str "d1") (.num 100) (.num 10) (.num 100) (.num 100)) =
      some revenueTieRecB := by
  rw [prepRow_some true
    (mkRowR (.str "B") (.str "d1") (.num 100) (.num 10) (.num 100) (.num 100))
    (i := 100) (c := 10) (s := 100) rfl rfl rfl]
  norm_num [revenueTieRecB, cellKey, getCell_mkRowR_campaign, getCell_mkRowR_date,
    getCell_mkRowR_revenue, toNumeric, CampaignRecord.mk.injEq]

theorem prepRow_revenueTieA :
    prepRow true (mkRowR (.str "A") (.str "d2") (.num 100) (.num 10) (.num 50) (.num 100)) =
      some revenueTieRecA := by
  rw [prepRow_some true
    (mkRowR (.str "A") (.str "d2") (.num 100) (.num 10) (.num 50) (.num 100))
    (i := 100) (c := 10) (s := 50) rfl rfl rfl]
  norm_num [revenueTieRecA, cellKey, getCell_mkRowR_campaign, getCell_mkRowR_date,
    getCell_mkRowR_revenue, toNumeric, CampaignRecord.mk.injEq]

theorem clean_revenueTie :
    clean_and_prepare_data revenueTieTable (check_data_columns revenueTieTable.cols) =
      .ok [revenueTieRecB, revenueTieRecA] := by
  have hren : renameTable (check_data_columns revenueTieTable.cols) revenueTieTable =
      revenueTieTable := by decide
  have hok := clean_ok revenueTieTable (check_data_columns revenueTieTable.cols)
    (by rw [hren]; decide)
  rw [hren, show (revenueTieTable.cols.contains "revenue") = true from rfl,
    show revenueTieTable.rows =
      [mkRowR (.str "B") (.str "d1") (.num 100) (.num 10) (.num 100) (.num 100),
       mkRowR (.str "A") (.str "d2") (.num 100) (.num 10) (.num 50) (.num 100)] from rfl,
    filterMap_two prepRow_revenueTieB prepRow_revenueTieA] at hok
  exact hok

theorem prepRow_badClicks (b : Bool) : prepRow b badClicksRow = none := by
  rw [prepRow_none_iff]
  right; left
  simp [badClicksRow, getCell_mkRow_clicks, toNumeric, parseDecimal, trimChars,
    parseDecimalChars, parseUnsignedChars]

/-- Inversion: a successful run returns exactly the filterMap of the
renamed rows. -/
theorem clean_ok_inv {raw : RawTable} {m : List (String × String)}
    {recs : List CampaignRecord} (h : clean_and_prepare_data raw m = .ok recs) :
    recs = (renameTable m raw).rows.filterMap
      (prepRow ((renameTable m raw).cols.contains "revenue")) := by
  unfold clean_and_prepare_data at h
  rcases hf : requiredCols.find? (fun c => !((renameTable m raw).cols.contains c)) with _ | c
  · rw [hf] at h
    cases h
    rfl
  · rw [hf] at h
    exact absurd h (by simp)

/-- Claim C5: with no revenue column mapped, every canonical record's
revenue is its coerced (pre-guard) spend times 2.5; on the Scenario A
dataset (columns `Campaign, Date, Impressions, Clicks, Spend`, single row
`(CampaignX, 2024-01-01, 100, 10, 50)`) the normalized record has
revenue 125, roas 2.5, ctr 0.10, cpc 5. -/
theorem C5_revenue_synthesis :
    (∀ (raw : RawTable) (m : List (String × String)) (recs : List CampaignRecord)
        (rec : CampaignRecord), clean_and_prepare_data raw m = .ok recs →
        (renameTable m raw).cols.contains "revenue" = false → rec ∈ recs →
        ∃ row ∈ (renameTable m raw).rows, ∃ q,
          coerceSpendCell (getCell row "spend") = some q ∧
          rec.revenue = some (q * (5/2))) ∧
    (clean_and_prepare_data scenarioATable (check_data_columns scenarioATable.cols) =
        .ok [scenarioARec] ∧
      scenarioARec.revenue = some 125 ∧ scenarioARec.roas = some (5/2) ∧
      scenarioARec.ctr = 1/10 ∧ scenarioARec.cpc = 5) := by
  constructor
  · intro raw m recs rec hok hnorev hmem
    rw [clean_ok_inv hok, hnorev] at hmem
    obtain ⟨row, hrowmem, hrow⟩ := List.mem_filterMap.mp hmem
    obtain ⟨i, c, s, hi, hc, hs, hrec⟩ := prepRow_some_inv hrow
    refine ⟨row, hrowmem, s, hs, ?_⟩
    rw [hrec]
    simp
  · exact ⟨clean_scenarioA, rfl, rfl, rfl, rfl⟩

/-- Witness for C5 at the Scenario A dataset. -/
theorem C5_witness :
    ∃ row ∈ (renameTable (check_data_columns scenarioATable.cols) scenarioATable).rows, ∃ q,
      coerceSpendCell (getCell row "spend") = some q ∧
      scenarioARec.revenue = some (q * (5/2)) :=
  C5_revenue_synthesis.1 scenarioATable (check_data_columns scenarioATable.cols)
    [scenarioARec] scenarioARec clean_scenarioA (by decide) (by simp)

/-- Claim C6: the canonical table is exactly the rows whose impressions,
clicks and spend all coerce; a row is dropped iff one of the three
coercions fails; and deleting a dropped row from the input leaves the
canonical table (hence every aggregate computed from it) unchanged. -/
theorem C6_null_coercion_drop :
    (∀ (raw : RawTable) (m : List (String × String)) (recs : List CampaignRecord),
        clean_and_prepare_data raw m = .ok recs →
        recs = (renameTable m raw).rows.filterMap
          (prepRow ((renameTable m raw).cols.contains "revenue"))) ∧
    (∀ (hasRev : Bool) (row : Row), prepRow hasRev row = none ↔
        toNumeric (getCell row "impressions") = none ∨
        toNumeric (getCell row "clicks") = none ∨
        coerceSpendCell (getCell row "spend") = none) ∧
    (∀ (hasRev : Bool) (rows₁ rows₂ : List Row) (bad : Row), prepRow hasRev bad = none →
        (rows₁ ++ bad :: rows₂).filterMap (prepRow hasRev) =
          (rows₁ ++ rows₂).filterMap (prepRow hasRev)) := by
  refine ⟨fun raw m recs h => clean_ok_inv h, prepRow_none_iff, ?_⟩
  intro hasRev rows₁ rows₂ bad hbad
  simp [List.filterMap_append, List.filterMap_cons, hbad]

/-- Witness for C6: a Scenario F row (non-numeric clicks) is dropped and
removing it from the input leaves the canonical table unchanged. -/
theorem C6_witness :
    ([mkRow (.str "F2") (.str "d") (.num 1) (.num 1) (.num 1)] ++ badClicksRow :: []).filterMap
        (prepRow false) =
      ([mkRow (.str "F2") (.str "d") (.num 1) (.num 1) (.num 1)] ++ []).filterMap
        (prepRow false) :=
  C6_null_coercion_drop.2.2 false [mkRow (.str "F2") (.str "d") (.num 1) (.num 1) (.num 1)] []
    badClicksRow (prepRow_badClicks false)

/-- Claim C7: on the empty canonical table the best/worst/top-5 keys are
absent from the summary (not zero/null defaults), and the insight
composer fails (a `KeyError`, modelled as `none`) rather than producing
defaulted insights. -/
theorem C7_empty_input_omits_fields :
    (calculate_summary_stats []).best_campaign = none ∧
    (calculate_summary_stats []).best_roas = none ∧
    (calculate_summary_stats []).worst_campaign = none ∧
    (calculate_summary_stats []).worst_roas = none ∧
    (calculate_summary_stats []).top_5_campaigns = none ∧
    generate_insights (calculate_summary_stats []) = none :=
  ⟨rfl, rfl, rfl, rfl, rfl, rfl⟩

/-- Claim C8: the spend strip removes every `$` and `,` character from
the textual form before numeric coercion; `"$1,250.00"` coerces to
1250.00 and the record is retained. -/
theorem C8_currency_strip :
    (∀ l : List Char, '$' ∉ stripMoneyChars l ∧ ',' ∉ stripMoneyChars l) ∧
    (∀ s : String,
        coerceSpendCell (.str s) = parseDecimal (String.mk (stripMoneyChars s.data))) ∧
    coerceSpendCell (.str "$1,250.00") = some 1250 ∧
    clean_and_prepare_data scenarioETable (check_data_columns scenarioETable.cols) =
      .ok [scenarioERec] ∧
    scenarioERec.spend = 1250 := by
  refine ⟨?_, fun s => rfl, coerceSpend_scenarioE, clean_scenarioE, rfl⟩
  intro l
  constructor <;> intro hmem <;> simp [stripMoneyChars, List.mem_filter] at hmem

/-- Witness for C8 at the Scenario E spend text. -/
theorem C8_witness :
    '$' ∉ stripMoneyChars ("$1,250.00".data) ∧ ',' ∉ stripMoneyChars ("$1,250.00".data) :=
  C8_currency_strip.1 ("$1,250.00".data)

/-- Claim C9: if a required canonical column (campaign, date,
impressions, clicks, spend) is absent after the rename, the normalizer
fails with a diagnostic naming a missing field and produces no table; if
all five are present this step never fails and the canonical table is
produced. -/
theorem C9_required_columns :
    (∀ (raw : RawTable) (m : List (String × String)),
        (∃ c ∈ requiredCols, c ∉ (renameTable m raw).cols) →
        ∃ c ∈ requiredCols, c ∉ (renameTable m raw).cols ∧
          clean_and_prepare_data raw m =
            .error ("ERROR: Missing required column " ++ c)) ∧
    (∀ (raw : RawTable) (m : List (String × String)),
        (∀ c ∈ requiredCols, c ∈ (renameTable m raw).cols) →
        clean_and_prepare_data raw m =
          .ok ((renameTable m raw).rows.filterMap
            (prepRow ((renameTable m raw).cols.contains "revenue")))) := by
  refine ⟨?_, clean_ok⟩
  intro raw m hex
  have hsome : (requiredCols.find? (fun c => !((renameTable m raw).cols.contains c))).isSome := by
    rw [List.find?_isSome]
    obtain ⟨c, hcmem, hcnot⟩ := hex
    exact ⟨c, hcmem, by simpa using hcnot⟩
  obtain ⟨c, hc⟩ := Option.isSome_iff_exists.mp hsome
  refine ⟨c, List.mem_of_find?_eq_some hc, ?_, clean_error raw m c hc⟩
  have := List.find?_some hc
  simpa using this

/-- Witness for C9: a table lacking `date` aborts naming a missing
column, and the complete Scenario A table passes the check. -/
theorem C9_witness :
    (∃ c ∈ requiredCols, c ∉ (renameTable [] missingDateTable).cols ∧
        clean_and_prepare_data missingDateTable [] =
          .error ("ERROR: Missing required column " ++ c)) ∧
    clean_and_prepare_data scenarioATable (check_data_columns scenarioATable.cols) =
      .ok ((renameTable (check_data_columns scenarioATable.cols) scenarioATable).rows.filterMap
        (prepRow ((renameTable (check_data_columns scenarioATable.cols)
          scenarioATable).cols.contains "revenue"))) :=
  ⟨C9_required_columns.1 missingDateTable [] ⟨"date", by decide, by decide⟩,
   C9_required_columns.2 scenarioATable (check_data_columns scenarioATable.cols) (by decide)⟩

/-- Counterexample to claim C1 as stated: a retained row whose spend
coerces to 0.005 survives normalization with spend 1/200 < 0.01 — the
guard only replaces exact zeros, so `spend >= 0.01` does not hold of
every record. -/
theorem C1_counterexample :
    clean_and_prepare_data smallSpendTable (check_data_columns smallSpendTable.cols) =
      .ok [smallSpendRec] ∧
    smallSpendRec.spend < 1/100 :=
  ⟨clean_smallSpend, by norm_num [smallSpendRec]⟩

/-- Claim C1 (amended): the guard replaces impressions 0 with 1, clicks 0
with 1, spend 0 with 0.01 on the rows that survive null-dropping; the
bounds impressions ≥ 1, clicks ≥ 1, spend ≥ 0.01 hold for every record
provided each retained row's coerced impressions and clicks are natural
numbers and its coerced spend is either 0 or at least 0.01. -/
theorem C1_guard_and_bounds :
    (∀ (hasRev : Bool) (row : Row) (i c s : ℚ) (rec : CampaignRecord),
        toNumeric (getCell row "impressions") = some i →
        toNumeric (getCell row "clicks") = some c →
        coerceSpendCell (getCell row "spend") = some s →
        prepRow hasRev row = some rec →
        rec.impressions = (if i = 0 then 1 else i) ∧
        rec.clicks = (if c = 0 then 1 else c) ∧
        rec.spend = (if s = 0 then 1/100 else s)) ∧
    (∀ (raw : RawTable) (m : List (String × String)) (recs : List CampaignRecord),
        clean_and_prepare_data raw m = .ok recs →
        (∀ row ∈ (renameTable m raw).rows,
          (∀ q, toNumeric (getCell row "impressions") = some q → ∃ n : ℕ, q = n) ∧
          (∀ q, toNumeric (getCell row "clicks") = some q → ∃ n : ℕ, q = n) ∧
          (∀ q, coerceSpendCell (getCell row "spend") = some q → q = 0 ∨ 1/100 ≤ q)) →
        ∀ rec ∈ recs, 1 ≤ rec.impressions ∧ 1 ≤ rec.clicks ∧ 1/100 ≤ rec.spend) := by
  have key : ∀ (hasRev : Bool) (row : Row) (i c s : ℚ) (rec : CampaignRecord),
      toNumeric (getCell row "impressions") = some i →
      toNumeric (getCell row "clicks") = some c →
      coerceSpendCell (getCell row "spend") = some s →
      prepRow hasRev row = some rec →
      rec.impressions = (if i = 0 then 1 else i) ∧
      rec.clicks = (if c = 0 then 1 else c) ∧
      rec.spend = (if s = 0 then 1/100 else s) := by
    intro hasRev row i c s rec hi hc hs hrec
    rw [prepRow_some hasRev row hi hc hs] at hrec
    cases hrec
    exact ⟨rfl, rfl, rfl⟩
  refine ⟨key, ?_⟩
  intro raw m recs hok hvals rec hmem
  rw [clean_ok_inv hok] at hmem
  obtain ⟨row, hrowmem, hrow⟩ := List.mem_filterMap.mp hmem
  obtain ⟨i, c, s, hi, hc, hs, _⟩ := prepRow_some_inv hrow
  obtain ⟨himp, hclk, hspd⟩ := key _ row i c s rec hi hc hs hrow
  obtain ⟨hvi, hvc, hvs⟩ := hvals row hrowmem
  obtain ⟨ni, hni⟩ := hvi i hi
  obtain ⟨nc, hnc⟩ := hvc c hc
  refine ⟨?_, ?_, ?_⟩
  · rw [himp]
    by_cases h0 : i = 0
    · simp [h0]
    · rw [if_neg h0, hni]
      have : ni ≠ 0 := by
        intro h
        exact h0 (by rw [hni, h]; norm_num)
      exact_mod_cast Nat.one_le_iff_ne_zero.mpr this
  · rw [hclk]
    by_cases h0 : c = 0
    · simp [h0]
    · rw [if_neg h0, hnc]
      have : nc ≠ 0 := by
        intro h
        exact h0 (by rw [hnc, h]; norm_num)
      exact_mod_cast Nat.one_le_iff_ne_zero.mpr this
  · rw [hspd]
    by_cases h0 : s = 0
    · simp [h0]
    · rw [if_neg h0]
      rcases hvs s hs with h | h
      · exact absurd h h0
      · exact h

/-- Witness for the amended C1 on a table that exercises the guard:
impressions 0 and spend 0 become 1 and 0.01. -/
theorem C1_witness :
    1 ≤ guardWitnessRec.impressions ∧ 1 ≤ guardWitnessRec.clicks ∧
      1/100 ≤ guardWitnessRec.spend := by
  refine C1_guard_and_bounds.2 guardWitnessTable (check_data_columns guardWitnessTable.cols)
    [guardWitnessRec] clean_guardWitness ?_ guardWitnessRec (by simp)
  intro row hrow
  have hren : (renameTable (check_data_columns guardWitnessTable.cols) guardWitnessTable).rows =
      [mkRow (.str "W") (.str "2024-01-01") (.num 0) (.num 5) (.num 0)] := by decide
  rw [hren] at hrow
  rw [List.mem_singleton] at hrow
  subst hrow
  refine ⟨?_, ?_, ?_⟩
  · intro q hq
    rw [getCell_mkRow_impressions] at hq
    exact ⟨0, by simpa [toNumeric] using hq.symm⟩
  · intro q hq
    rw [getCell_mkRow_clicks] at hq
    refine ⟨5, ?_⟩
    have : (5 : ℚ) = q := by simpa [toNumeric] using hq
    rw [← this]
    norm_num
  · intro q hq
    rw [getCell_mkRow_spend] at hq
    left
    simpa [coerceSpendCell] using hq.symm

/-- Counterexample to claim C2 as stated: with a mapped revenue column, a
row whose revenue value fails coercion is retained and its roas is NaN
(`none`), hence not a finite number. -/
theorem C2_counterexample :
    clean_and_prepare_data badRevenueTable (check_data_columns badRevenueTable.cols) =
      .ok [badRevenueRec1, badRevenueRec2] ∧
    badRevenueRec2.roas = none :=
  ⟨clean_badRevenue, rfl⟩

/-- Claim C2 (amended): for every canonical record the guard leaves all
three divisors nonzero, so `ctr = clicks/impressions` and
`cpc = spend/clicks` are always finite; `roas` is finite exactly when
revenue is non-null, which always holds when revenue was synthesized;
and all three are non-negative provided the row's coerced impressions,
clicks, spend and (when mapped) revenue are non-negative. -/
theorem C2_derived_fields :
    (∀ (hasRev : Bool) (row : Row) (rec : CampaignRecord), prepRow hasRev row = some rec →
        rec.impressions ≠ 0 ∧ rec.clicks ≠ 0 ∧ rec.spend ≠ 0 ∧
        rec.ctr = rec.clicks / rec.impressions ∧ rec.cpc = rec.spend / rec.clicks ∧
        (rec.roas.isSome ↔ rec.revenue.isSome) ∧
        (hasRev = false → rec.roas.isSome)) ∧
    (∀ (hasRev : Bool) (row : Row) (i c s : ℚ) (rec : CampaignRecord),
        toNumeric (getCell row "impressions") = some i →
        toNumeric (getCell row "clicks") = some c →
        coerceSpendCell (getCell row "spend") = some s →
        0 ≤ i → 0 ≤ c → 0 ≤ s →
        (∀ q, toNumeric (getCell row "revenue") = some q → 0 ≤ q) →
        prepRow hasRev row = some rec →
        0 ≤ rec.ctr ∧ 0 ≤ rec.cpc ∧ ∀ v, rec.roas = some v → 0 ≤ v) := by
  constructor
  · intro hasRev row rec hrec
    obtain ⟨i, c, s, hi, hc, hs, hrec⟩ := prepRow_some_inv hrec
    subst hrec
    refine ⟨?_, ?_, ?_, rfl, rfl, ?_, ?_⟩
    · by_cases h0 : i = 0 <;> simp [h0]
    · by_cases h0 : c = 0 <;> simp [h0]
    · by_cases h0 : s = 0 <;> simp [h0]
    · rcases hR : (if hasRev then toNumeric (getCell row "revenue") else some (s * (5/2))) with
        _ | r <;> simp [hR]
    · intro h
      simp [h]
  · intro hasRev row i c s rec hi hc hs hinn hcnn hsnn hrev hrec
    rw [prepRow_some hasRev row hi hc hs] at hrec
    cases hrec
    have hipos : (0 : ℚ) < if i = 0 then 1 else i := by
      by_cases h0 : i = 0
      · simp [h0]
      · rw [if_neg h0]
        exact lt_of_le_of_ne hinn (Ne.symm h0)
    have hcpos : (0 : ℚ) < if c = 0 then 1 else c := by
      by_cases h0 : c = 0
      · simp [h0]
      · rw [if_neg h0]
        exact lt_of_le_of_ne hcnn (Ne.symm h0)
    have hspos : (0 : ℚ) < if s = 0 then 1/100 else s := by
      by_cases h0 : s = 0
      · rw [if_pos h0]
        norm_num
      · rw [if_neg h0]
        exact lt_of_le_of_ne hsnn (Ne.symm h0)
    refine ⟨div_nonneg hcpos.le hipos.le, div_nonneg hspos.le hcpos.le, ?_⟩
    intro v hv
    rcases hR : (if hasRev then toNumeric (getCell row "revenue") else some (s * (5/2))) with _ | r
    · simp [hR] at hv
    · rw [hR] at hv
      simp only [Option.map_some] at hv
      have hrnn : 0 ≤ r := by
        by_cases hb : hasRev
        · exact hrev r (by rw [← hR, if_pos hb])
        · have : some (s * (5/2)) = some r := by rw [← hR, if_neg hb]
          have := Option.some.inj this
          rw [← this]
          positivity
      rw [← Option.some.inj hv]
      exact div_nonneg hrnn hspos.le

/-- Witness for the amended C2 at the first `badRevenueTable` row. -/
theorem C2_witness :
    0 ≤ badRevenueRec1.ctr ∧ 0 ≤ badRevenueRec1.cpc ∧
      ∀ v, badRevenueRec1.roas = some v → 0 ≤ v := by
  refine C2_derived_fields.2 true
    (mkRowR (.str "A") (.str "d1") (.num 100) (.num 10) (.num 50) (.num 100))
    100 10 50 badRevenueRec1 rfl rfl rfl (by norm_num) (by norm_num) (by norm_num)
    ?_ prepRow_badRevenue1
  intro q hq
  rw [getCell_mkRowR_revenue] at hq
  have : (100 : ℚ) = q := by simpa [toNumeric] using hq
  rw [← this]
  norm_num

/-- A NaN-skipping sum equals a sum with nulls replaced by zero: the null
values contribute nothing. -/
theorem sum_filterMap_getD (l : List CampaignRecord) :
    (l.filterMap (fun r => r.revenue)).sum = (l.map (fun r => r.revenue.getD 0)).sum := by
  induction l with
  | nil => rfl
  | cons a l ih => cases h : a.revenue <;> simp [List.filterMap_cons, h, ih]

/-- Counterexample to claim C10's participation clause: the second
record's revenue is null, yet the global revenue total is the skipna sum
100 — a total its null revenue actually participated in would be NaN, as
`totalRevenueAllRecords` models. -/
theorem C10_counterexample :
    clean_and_prepare_data badRevenueTable (check_data_columns badRevenueTable.cols) =
      .ok [badRevenueRec1, badRevenueRec2] ∧
    badRevenueRec2.revenue = none ∧
    (calculate_summary_stats [badRevenueRec1, badRevenueRec2]).total_revenue = 100 ∧
    totalRevenueAllRecords [badRevenueRec1, badRevenueRec2] = none ∧
    some (calculate_summary_stats [badRevenueRec1, badRevenueRec2]).total_revenue ≠
      totalRevenueAllRecords [badRevenueRec1, badRevenueRec2] := by
  have htot : (calculate_summary_stats [badRevenueRec1, badRevenueRec2]).total_revenue = 100 := by
    show ([badRevenueRec1, badRevenueRec2].filterMap (fun r => r.revenue)).sum = 100
    norm_num [List.filterMap_cons, badRevenueRec1, badRevenueRec2]
  have hall : totalRevenueAllRecords [badRevenueRec1, badRevenueRec2] = none := rfl
  refine ⟨clean_badRevenue, rfl, htot, hall, ?_⟩
  rw [htot, hall]
  simp

/-- Claim C10 (amended): with a mapped revenue column, a row whose
revenue fails coercion but whose impressions, clicks and spend coerce is
retained with null revenue and null (NaN) roas; its null revenue is then
skipped by — contributes nothing to — the global revenue total and the
per-campaign revenue sums, which equal sums with nulls replaced by 0. -/
theorem C10_null_revenue_retained_skipped :
    (∀ (row : Row) (i c s : ℚ),
        toNumeric (getCell row "impressions") = some i →
        toNumeric (getCell row "clicks") = some c →
        coerceSpendCell (getCell row "spend") = some s →
        toNumeric (getCell row "revenue") = none →
        ∃ rec, prepRow true row = some rec ∧ rec.revenue = none ∧ rec.roas = none) ∧
    (∀ recs : List CampaignRecord,
        (calculate_summary_stats recs).total_revenue =
          (recs.map (fun r => r.revenue.getD 0)).sum) ∧
    (∀ (recs : List CampaignRecord) (k : String),
        (rollupFor recs k).revenue =
          round2 ((recs.filter (fun r => r.campaign == k)).map
            (fun r => r.revenue.getD 0)).sum) := by
  refine ⟨?_, ?_, ?_⟩
  · intro row i c s hi hc hs hr
    refine ⟨_, prepRow_some true row hi hc hs, ?_, ?_⟩ <;> simp [hr]
  · intro recs
    show (recs.filterMap (fun r => r.revenue)).sum = _
    exact sum_filterMap_getD recs
  · intro recs k
    show round2 ((recs.filter (fun r => r.campaign == k)).filterMap (fun r => r.revenue)).sum = _
    rw [sum_filterMap_getD]

/-- Witness for the amended C10 at the bad-revenue row. -/
theorem C10_witness :
    ∃ rec, prepRow true
        (mkRowR (.str "B") (.str "d2") (.num 100) (.num 10) (.num 50) (.str "abc")) =
        some rec ∧ rec.revenue = none ∧ rec.roas = none :=
  C10_null_revenue_retained_skipped.1
    (mkRowR (.str "B") (.str "d2") (.num 100) (.num 10) (.num 50) (.str "abc"))
    100 10 50 rfl rfl rfl (by rw [getCell_mkRowR_revenue]; exact toNumeric_abc)

theorem lexLe_cons (x y : Char) (xs ys : List Char) :
    lexLe (x :: xs) (y :: ys) =
      if x < y then true else if y < x then false else lexLe xs ys := rfl

theorem lexLe_refl (l : List Char) : lexLe l l = true := by
  induction l with
  | nil => rfl
  | cons a as ih => simp [lexLe_cons, lt_irrefl, ih]

theorem lexLe_total (a b : List Char) : lexLe a b = true ∨ lexLe b a = true := by
  induction a generalizing b with
  | nil => left; rfl
  | cons x xs ih =>
    cases b with
    | nil => right; rfl
    | cons y ys =>
      rcases lt_trichotomy x y with h | h | h
      · left; simp [lexLe_cons, h]
      · subst h
        rcases ih ys with h' | h'
        · left; simp [lexLe_cons, lt_irrefl, h']
        · right; simp [lexLe_cons, lt_irrefl, h']
      · right; simp [lexLe_cons, h]

theorem lexLe_trans (a b c : List Char) (hab : lexLe a b = true) (hbc : lexLe b c = true) :
    lexLe a c = true := by
  induction a generalizing b c with
  | nil => rfl
  | cons x xs ih =>
    cases b with
    | nil => simp [lexLe] at hab
    | cons y ys =>
      cases c with
      | nil => simp [lexLe] at hbc
      | cons z zs =>
        rw [lexLe_cons] at hab hbc ⊢
        by_cases hxy : x < y
        · by_cases hyz : y < z
          · rw [if_pos (lt_trans hxy hyz)]
          · by_cases hzy : z < y
            · rw [if_neg hyz, if_pos hzy] at hbc
              exact absurd hbc (by simp)
            · have hyzeq : y = z := le_antisymm (not_lt.mp hzy) (not_lt.mp hyz)
              subst hyzeq
              rw [if_pos hxy]
        · by_cases hyx : y < x
          · rw [if_neg hxy, if_pos hyx] at hab
            exact absurd hab (by simp)
          · have hxyeq : x = y := le_antisymm (not_lt.mp hyx) (not_lt.mp hxy)
            subst hxyeq
            rw [if_neg hxy, if_neg hyx] at hab
            by_cases hxz : x < z
            · rw [if_pos hxz]
            · by_cases hzx : z < x
              · rw [if_neg hxz, if_pos hzx] at hbc
                exact absurd hbc (by simp)
              · rw [if_neg hxz, if_neg hzx] at hbc ⊢
                exact ih ys zs hab hbc

theorem sLe_refl (a : String) : sLe a a := lexLe_refl a.data

instance : IsTotal String sLe := ⟨fun a b => lexLe_total a.data b.data⟩

instance : IsTrans String sLe := ⟨fun a b c => lexLe_trans a.data b.data c.data⟩

instance : IsTotal (String × CampaignRollup) topRel := ⟨by
  intro a b
  rcases lt_trichotomy a.2.revenue b.2.revenue with h | h | h
  · right; left; exact h
  · rcases total_of sLe a.1 b.1 with h' | h'
    · left; right; exact ⟨h, h'⟩
    · right; right; exact ⟨h.symm, h'⟩
  · left; left; exact h⟩

instance : IsTrans (String × CampaignRollup) topRel := ⟨by
  intro a b c hab hbc
  rcases hab with h1 | ⟨h1, h1'⟩ <;> rcases hbc with h2 | ⟨h2, h2'⟩
  · exact Or.inl (lt_trans h2 h1)
  · exact Or.inl (h2 ▸ h1)
  · exact Or.inl (by rw [h1]; exact h2)
  · exact Or.inr ⟨h1.trans h2, trans_of sLe h1' h2'⟩⟩

theorem firstArgmax_cons (p : String × ℚ) (l : List (String × ℚ)) :
    firstArgmax (p :: l) =
      match firstArgmax l with
      | none => some p
      | some q => if p.2 < q.2 then some q else some p := rfl

theorem firstArgmin_cons (p : String × ℚ) (l : List (String × ℚ)) :
    firstArgmin (p :: l) =
      match firstArgmin l with
      | none => some p
      | some q => if q.2 < p.2 then some q else some p := rfl

theorem firstArgmax_cons_none {l : List (String × ℚ)} (p : String × ℚ)
    (h : firstArgmax l = none) : firstArgmax (p :: l) = some p := by
  simp [firstArgmax_cons, h]

theorem firstArgmax_cons_some {l : List (String × ℚ)} {r : String × ℚ} (p : String × ℚ)
    (h : firstArgmax l = some r) :
    firstArgmax (p :: l) = if p.2 < r.2 then some r else some p := by
  simp [firstArgmax_cons, h]

theorem firstArgmin_cons_none {l : List (String × ℚ)} (p : String × ℚ)
    (h : firstArgmin l = none) : firstArgmin (p :: l) = some p := by
  simp [firstArgmin_cons, h]

theorem firstArgmin_cons_some {l : List (String × ℚ)} {r : String × ℚ} (p : String × ℚ)
    (h : firstArgmin l = some r) :
    firstArgmin (p :: l) = if r.2 < p.2 then some r else some p := by
  simp [firstArgmin_cons, h]

theorem firstArgmax_eq_none : ∀ {l : List (String × ℚ)}, firstArgmax l = none ↔ l = [] := by
  intro l
  cases l with
  | nil => simp [firstArgmax]
  | cons p l =>
    rcases hl : firstArgmax l with _ | r
    · rw [firstArgmax_cons_none p hl]; simp
    · rw [firstArgmax_cons_some p hl]
      by_cases hc : p.2 < r.2 <;> simp [hc]

theorem firstArgmin_eq_none : ∀ {l : List (String × ℚ)}, firstArgmin l = none ↔ l = [] := by
  intro l
  cases l with
  | nil => simp [firstArgmin]
  | cons p l =>
    rcases hl : firstArgmin l with _ | r
    · rw [firstArgmin_cons_none p hl]; simp
    · rw [firstArgmin_cons_some p hl]
      by_cases hc : r.2 < p.2 <;> simp [hc]

theorem firstArgmax_mem : ∀ {l : List (String × ℚ)} {q}, firstArgmax l = some q → q ∈ l := by
  intro l
  induction l with
  | nil => intro q h; simp [firstArgmax] at h
  | cons p l ih =>
    intro q h
    rcases hl : firstArgmax l with _ | r
    · rw [firstArgmax_cons_none p hl] at h
      cases h; exact List.mem_cons_self _ _
    · rw [firstArgmax_cons_some p hl] at h
      by_cases hc : p.2 < r.2
      · rw [if_pos hc] at h; cases h; exact List.mem_cons_of_mem _ (ih hl)
      · rw [if_neg hc] at h; cases h; exact List.mem_cons_self _ _

theorem firstArgmin_mem : ∀ {l : List (String × ℚ)} {q}, firstArgmin l = some q → q ∈ l := by
  intro l
  induction l with
  | nil => intro q h; simp [firstArgmin] at h
  | cons p l ih =>
    intro q h
    rcases hl : firstArgmin l with _ | r
    · rw [firstArgmin_cons_none p hl] at h
      cases h; exact List.mem_cons_self _ _
    · rw [firstArgmin_cons_some p hl] at h
      by_cases hc : r.2 < p.2
      · rw [if_pos hc] at h; cases h; exact List.mem_cons_of_mem _ (ih hl)
      · rw [if_neg hc] at h; cases h; exact List.mem_cons_self _ _

theorem firstArgmax_le : ∀ {l : List (String × ℚ)} {q}, firstArgmax l = some q →
    ∀ p ∈ l, p.2 ≤ q.2 := by
  intro l
  induction l with
  | nil => intro q _ p hp; simp at hp
  | cons p0 l ih =>
    intro q h p hp
    rcases hl : firstArgmax l with _ | r
    · rw [firstArgmax_cons_none p0 hl] at h
      cases h
      rcases List.mem_cons.mp hp with h' | h'
      · rw [h']
      · rw [firstArgmax_eq_none.mp hl] at h'; simp at h'
    · rw [firstArgmax_cons_some p0 hl] at h
      by_cases hc : p0.2 < r.2
      · rw [if_pos hc] at h; cases h
        rcases List.mem_cons.mp hp with h' | h'
        · rw [h']; exact le_of_lt hc
        · exact ih hl p h'
      · rw [if_neg hc] at h; cases h
        rcases List.mem_cons.mp hp with h' | h'
        · rw [h']
        · exact le_trans (ih hl p h') (not_lt.mp hc)

theorem firstArgmin_le : ∀ {l : List (String × ℚ)} {q}, firstArgmin l = some q →
    ∀ p ∈ l, q.2 ≤ p.2 := by
  intro l
  induction l with
  | nil => intro q _ p hp; simp at hp
  | cons p0 l ih =>
    intro q h p hp
    rcases hl : firstArgmin l with _ | r
    · rw [firstArgmin_cons_none p0 hl] at h
      cases h
      rcases List.mem_cons.mp hp with h' | h'
      · rw [h']
      · rw [firstArgmin_eq_none.mp hl] at h'; simp at h'
    · rw [firstArgmin_cons_some p0 hl] at h
      by_cases hc : r.2 < p0.2
      · rw [if_pos hc] at h; cases h
        rcases List.mem_cons.mp hp with h' | h'
        · rw [h']; exact le_of_lt hc
        · exact ih hl p h'
      · rw [if_neg hc] at h; cases h
        rcases List.mem_cons.mp hp with h' | h'
        · rw [h']
        · exact le_trans (not_lt.mp hc) (ih hl p h')

theorem firstArgmax_first : ∀ {l : List (String × ℚ)} {q},
    List.Pairwise (fun a b => sLe a.1 b.1) l → firstArgmax l = some q →
    ∀ p ∈ l, p.2 = q.2 → sLe q.1 p.1 := by
  intro l
  induction l with
  | nil => intro q _ _ p hp; simp at hp
  | cons p0 l ih =>
    intro q hpw h p hp hpq
    have hhead : ∀ b ∈ l, sLe p0.1 b.1 := fun b hb => List.rel_of_pairwise_cons hpw hb
    have htail := List.Pairwise.of_cons hpw
    rcases hl : firstArgmax l with _ | r
    · rw [firstArgmax_cons_none p0 hl] at h
      cases h
      rcases List.mem_cons.mp hp with h' | h'
      · rw [h']; exact sLe_refl _
      · rw [firstArgmax_eq_none.mp hl] at h'; simp at h'
    · rw [firstArgmax_cons_some p0 hl] at h
      by_cases hc : p0.2 < r.2
      · rw [if_pos hc] at h; cases h
        rcases List.mem_cons.mp hp with h' | h'
        · rw [h'] at hpq; exact absurd hc (by rw [hpq]; exact lt_irrefl _)
        · exact ih htail hl p h' hpq
      · rw [if_neg hc] at h; cases h
        rcases List.mem_cons.mp hp with h' | h'
        · rw [h']; exact sLe_refl _
        · exact hhead p h'

theorem firstArgmin_first : ∀ {l : List (String × ℚ)} {q},
    List.Pairwise (fun a b => sLe a.1 b.1) l → firstArgmin l = some q →
    ∀ p ∈ l, p.2 = q.2 → sLe q.1 p.1 := by
  intro l
  induction l with
  | nil => intro q _ _ p hp; simp at hp
  | cons p0 l ih =>
    intro q hpw h p hp hpq
    have hhead : ∀ b ∈ l, sLe p0.1 b.1 := fun b hb => List.rel_of_pairwise_cons hpw hb
    have htail := List.Pairwise.of_cons hpw
    rcases hl : firstArgmin l with _ | r
    · rw [firstArgmin_cons_none p0 hl] at h
      cases h
      rcases List.mem_cons.mp hp with h' | h'
      · rw [h']; exact sLe_refl _
      · rw [firstArgmin_eq_none.mp hl] at h'; simp at h'
    · rw [firstArgmin_cons_some p0 hl] at h
      by_cases hc : r.2 < p0.2
      · rw [if_pos hc] at h; cases h
        rcases List.mem_cons.mp hp with h' | h'
        · rw [h'] at hpq; exact absurd hc (by rw [hpq]; exact lt_irrefl _)
        · exact ih htail hl p h' hpq
      · rw [if_neg hc] at h; cases h
        rcases List.mem_cons.mp hp with h' | h'
        · rw [h']; exact sLe_refl _
        · exact hhead p h'

theorem best_campaign_def (recs : List CampaignRecord) :
    (calculate_summary_stats recs).best_campaign =
      if (campaign_stats recs).isEmpty then none
      else (firstArgmax (roasPairs (campaign_stats recs))).map (fun p => p.1) := rfl

theorem best_roas_def (recs : List CampaignRecord) :
    (calculate_summary_stats recs).best_roas =
      if (campaign_stats recs).isEmpty then none
      else (firstArgmax (roasPairs (campaign_stats recs))).map (fun p => p.2) := rfl

theorem worst_campaign_def (recs : List CampaignRecord) :
    (calculate_summary_stats recs).worst_campaign =
      if (campaign_stats recs).isEmpty then none
      else (firstArgmin (roasPairs (campaign_stats recs))).map (fun p => p.1) := rfl

theorem worst_roas_def (recs : List CampaignRecord) :
    (calculate_summary_stats recs).worst_roas =
      if (campaign_stats recs).isEmpty then none
      else (firstArgmin (roasPairs (campaign_stats recs))).map (fun p => p.2) := rfl

theorem top_5_def (recs : List CampaignRecord) :
    (calculate_summary_stats recs).top_5_campaigns =
      if (campaign_stats recs).isEmpty then none else some (top5 (campaign_stats recs)) := rfl

/-- The group keys come out of the groupby sorted. -/
theorem sortedCampaigns_sorted (recs : List CampaignRecord) :
    List.Sorted sLe (sortedCampaigns recs) :=
  List.sorted_insertionSort sLe (campaignsInOrder recs)

/-- The frame rows of `campaign_stats` are in ascending key order. -/
theorem campaign_stats_pairwise (recs : List CampaignRecord) :
    List.Pairwise (fun a b => sLe a.1 b.1) (campaign_stats recs) := by
  unfold campaign_stats
  exact List.Pairwise.map _ (fun a b h => h) (sortedCampaigns_sorted recs)

/-- The non-NaN roas rows inherit the ascending key order. -/
theorem roasPairs_pairwise (recs : List CampaignRecord) :
    List.Pairwise (fun a b => sLe a.1 b.1) (roasPairs (campaign_stats recs)) := by
  unfold roasPairs
  refine List.Pairwise.filterMap _ ?_ (campaign_stats_pairwise recs)
  intro a a' hrel b hb b' hb'
  rcases Option.map_eq_some'.mp hb with ⟨v, _, hbv⟩
  rcases Option.map_eq_some'.mp hb' with ⟨v', _, hbv'⟩
  rw [← hbv, ← hbv']
  exact hrel

/-- Membership in `roasPairs`, in terms of the campaign keys and
rollups. -/
theorem mem_roasPairs_iff (recs : List CampaignRecord) (k : String) (v : ℚ) :
    (k, v) ∈ roasPairs (campaign_stats recs) ↔
      k ∈ sortedCampaigns recs ∧ (rollupFor recs k).roas = some v := by
  unfold roasPairs campaign_stats
  rw [List.mem_filterMap]
  constructor
  · rintro ⟨p, hpmem, hp⟩
    rcases List.mem_map.mp hpmem with ⟨key, hkey, hpk⟩
    rcases Option.map_eq_some'.mp hp with ⟨w, hw, hwp⟩
    cases hpk
    cases hwp
    exact ⟨hkey, hw⟩
  · rintro ⟨hk, hv⟩
    exact ⟨(k, rollupFor recs k), List.mem_map.mpr ⟨k, hk, rfl⟩, by rw [hv]; rfl⟩

/-- Claim C3 (amended): when the best/worst fields are present, the best
campaign carries the maximum (per-campaign, rounded) mean roas and the
worst the minimum, among the campaigns whose mean roas is not NaN; and a
tie is broken in favour of the lexicographically least campaign
identifier (the first row of the key-sorted groupby frame), not the
campaign appearing first in original record order. -/
theorem C3_best_worst_selection (recs : List CampaignRecord) (bk wk : String)
    (hb : (calculate_summary_stats recs).best_campaign = some bk)
    (hw : (calculate_summary_stats recs).worst_campaign = some wk) :
    (∃ q, (calculate_summary_stats recs).best_roas = some q ∧
      bk ∈ sortedCampaigns recs ∧ (rollupFor recs bk).roas = some q ∧
      ∀ k ∈ sortedCampaigns recs, ∀ v, (rollupFor recs k).roas = some v →
        v ≤ q ∧ (v = q → sLe bk k)) ∧
    (∃ q, (calculate_summary_stats recs).worst_roas = some q ∧
      wk ∈ sortedCampaigns recs ∧ (rollupFor recs wk).roas = some q ∧
      ∀ k ∈ sortedCampaigns recs, ∀ v, (rollupFor recs k).roas = some v →
        q ≤ v ∧ (v = q → sLe wk k)) := by
  rw [best_campaign_def] at hb
  rw [worst_campaign_def] at hw
  by_cases hemp : (campaign_stats recs).isEmpty
  · rw [if_pos hemp] at hb
    exact absurd hb (by simp)
  constructor
  · rw [if_neg hemp] at hb
    rcases Option.map_eq_some'.mp hb with ⟨p, hp, hpk⟩
    refine ⟨p.2, ?_, ?_, ?_, ?_⟩
    · rw [best_roas_def, if_neg hemp, hp]; rfl
    · rw [← hpk]
      exact ((mem_roasPairs_iff recs p.1 p.2).mp (by
        have := firstArgmax_mem hp
        simpa using this)).1
    · rw [← hpk]
      exact ((mem_roasPairs_iff recs p.1 p.2).mp (by
        have := firstArgmax_mem hp
        simpa using this)).2
    · intro k hk v hv
      have hkv : (k, v) ∈ roasPairs (campaign_stats recs) :=
        (mem_roasPairs_iff recs k v).mpr ⟨hk, hv⟩
      constructor
      · exact firstArgmax_le hp (k, v) hkv
      · intro hvq
        have := firstArgmax_first (roasPairs_pairwise recs) hp (k, v) hkv hvq
        rw [← hpk]
        exact this
  · rw [if_neg hemp] at hw
    rcases Option.map_eq_some'.mp hw with ⟨p, hp, hpk⟩
    refine ⟨p.2, ?_, ?_, ?_, ?_⟩
    · rw [worst_roas_def, if_neg hemp, hp]; rfl
    · rw [← hpk]
      exact ((mem_roasPairs_iff recs p.1 p.2).mp (by
        have := firstArgmin_mem hp
        simpa using this)).1
    · rw [← hpk]
      exact ((mem_roasPairs_iff recs p.1 p.2).mp (by
        have := firstArgmin_mem hp
        simpa using this)).2
    · intro k hk v hv
      have hkv : (k, v) ∈ roasPairs (campaign_stats recs) :=
        (mem_roasPairs_iff recs k v).mpr ⟨hk, hv⟩
      constructor
      · exact firstArgmin_le hp (k, v) hkv
      · intro hvq
        have := firstArgmin_first (roasPairs_pairwise recs) hp (k, v) hkv hvq
        rw [← hpk]
        exact this

theorem c3_rollupA : rollupFor [roasTieRecB, roasTieRecA] "A" =
    { roas := some 2, revenue := 100, spend := 50 } := by
  have hBA : ((("B" : String)) == "A") = false := by decide
  have hAA : ((("A" : String)) == "A") = true := by decide
  have hfilter : [roasTieRecB, roasTieRecA].filter (fun r => r.campaign == "A") =
      [roasTieRecA] := by
    simp [List.filter_cons, roasTieRecB, roasTieRecA, hBA, hAA]
  have hvals : [roasTieRecA].filterMap (fun r => r.roas) = [(2 : ℚ)] := by
    simp [roasTieRecA]
  have hrev : [roasTieRecA].filterMap (fun r => r.revenue) = [(100 : ℚ)] := by
    simp [roasTieRecA]
  have hspd : [roasTieRecA].map (fun r => r.spend) = [(50 : ℚ)] := by
    simp [roasTieRecA]
  unfold rollupFor
  rw [hfilter]
  simp only [hvals, hrev, hspd]
  norm_num [round2, roundHalfEven, CampaignRollup.mk.injEq]

theorem c3_rollupB : rollupFor [roasTieRecB, roasTieRecA] "B" =
    { roas := some 2, revenue := 200, spend := 100 } := by
  have hBB : ((("B" : String)) == "B") = true := by decide
  have hAB : ((("A" : String)) == "B") = false := by decide
  have hfilter : [roasTieRecB, roasTieRecA].filter (fun r => r.campaign == "B") =
      [roasTieRecB] := by
    simp [List.filter_cons, roasTieRecB, roasTieRecA, hBB, hAB]
  have hvals : [roasTieRecB].filterMap (fun r => r.roas) = [(2 : ℚ)] := by
    simp [roasTieRecB]
  have hrev : [roasTieRecB].filterMap (fun r => r.revenue) = [(200 : ℚ)] := by
    simp [roasTieRecB]
  have hspd : [roasTieRecB].map (fun r => r.spend) = [(100 : ℚ)] := by
    simp [roasTieRecB]
  unfold rollupFor
  rw [hfilter]
  simp only [hvals, hrev, hspd]
  norm_num [round2, roundHalfEven, CampaignRollup.mk.injEq]

theorem c3_stats : campaign_stats [roasTieRecB, roasTieRecA] =
    [("A", { roas := some 2, revenue := 100, spend := 50 }),
     ("B", { roas := some 2, revenue := 200, spend := 100 })] := by
  have hsorted : sortedCampaigns [roasTieRecB, roasTieRecA] = ["A", "B"] := by decide
  unfold campaign_stats
  rw [hsorted, List.map_cons, List.map_cons, List.map_nil, c3_rollupA, c3_rollupB]

theorem c3_best :
    (calculate_summary_stats [roasTieRecB, roasTieRecA]).best_campaign = some "A" := by
  have h1 : firstArgmax [(("B" : String), (2 : ℚ))] = some ("B", 2) := rfl
  have h2 : firstArgmax [(("A" : String), (2 : ℚ)), ("B", 2)] = some ("A", 2) := by
    rw [firstArgmax_cons_some ("A", 2) h1]
    norm_num
  rw [best_campaign_def, c3_stats]
  rw [show roasPairs [(("A" : String), ({ roas := some 2, revenue := 100, spend := 50 } :
    CampaignRollup)), ("B", { roas := some 2, revenue := 200, spend := 100 })] =
    [("A", 2), ("B", 2)] from by simp [roasPairs]]
  rw [h2]
  rfl

theorem c3_worst :
    (calculate_summary_stats [roasTieRecB, roasTieRecA]).worst_campaign = some "A" := by
  have h1 : firstArgmin [(("B" : String), (2 : ℚ))] = some ("B", 2) := rfl
  have h2 : firstArgmin [(("A" : String), (2 : ℚ)), ("B", 2)] = some ("A", 2) := by
    rw [firstArgmin_cons_some ("A", 2) h1]
    norm_num
  rw [worst_campaign_def, c3_stats]
  rw [show roasPairs [(("A" : String), ({ roas := some 2, revenue := 100, spend := 50 } :
    CampaignRollup)), ("B", { roas := some 2, revenue := 200, spend := 100 })] =
    [("A", 2), ("B", 2)] from by simp [roasPairs]]
  rw [h2]
  rfl

/-- Counterexample to claim C3 as stated: campaigns `B` (first in record
order) and `A` tie on mean roas 2, yet the aggregator selects `A` —
`idxmax` runs over the key-sorted groupby frame, so ties go to the
lexicographically smaller key, not to first appearance. -/
theorem C3_counterexample :
    clean_and_prepare_data roasTieTable (check_data_columns roasTieTable.cols) =
      .ok [roasTieRecB, roasTieRecA] ∧
    campaignsInOrder [roasTieRecB, roasTieRecA] = ["B", "A"] ∧
    (rollupFor [roasTieRecB, roasTieRecA] "A").roas =
      (rollupFor [roasTieRecB, roasTieRecA] "B").roas ∧
    (calculate_summary_stats [roasTieRecB, roasTieRecA]).best_campaign = some "A" ∧
    "A" ≠ "B" :=
  ⟨clean_roasTie, by decide, by rw [c3_rollupA, c3_rollupB], c3_best, by decide⟩

/-- Witness for the amended C3 at the tied dataset: the reported best
roas is the (tied) maximum 2 and the tie went to `A`, the
lexicographically smaller key. -/
theorem C3_witness :
    (calculate_summary_stats [roasTieRecB, roasTieRecA]).best_roas = some 2 ∧
    sLe "A" "B" := by
  obtain ⟨⟨q, hq, _, hroas, hmax⟩, _⟩ :=
    C3_best_worst_selection [roasTieRecB, roasTieRecA] "A" "A" c3_best c3_worst
  have hq2 : q = 2 := by
    rw [c3_rollupA] at hroas
    exact (Option.some.inj hroas).symm
  subst hq2
  refine ⟨hq, ?_⟩
  exact (hmax "B" (by decide) 2 (by rw [c3_rollupB])).2 rfl

/-- Claim C4 (amended): the top-5 list is the first five rows of the
rollup frame stably sorted by summed (rounded) revenue descending —
equivalently sorted by `topRel`, which breaks revenue ties by the
lexicographically smaller campaign key, the earlier row of the key-sorted
frame — so it holds the campaigns with the largest rounded revenue sums
in descending order; with five or fewer distinct campaigns it holds
exactly all of them. -/
theorem C4_top5_selection (recs : List CampaignRecord)
    (tops : List (String × CampaignRollup))
    (h : (calculate_summary_stats recs).top_5_campaigns = some tops) :
    tops.length = min 5 (campaign_stats recs).length ∧
    List.Sorted topRel tops ∧
    ((campaign_stats recs).length ≤ 5 → tops.Perm (campaign_stats recs)) ∧
    (∀ x ∈ tops, x ∈ campaign_stats recs) ∧
    (∀ x ∈ tops, ∀ y ∈ campaign_stats recs, y ∉ tops → y.2.revenue ≤ x.2.revenue) := by
  rw [top_5_def] at h
  by_cases hemp : (campaign_stats recs).isEmpty
  · rw [if_pos hemp] at h
    exact absurd h (by simp)
  rw [if_neg hemp] at h
  have htops : tops = (List.insertionSort topRel (campaign_stats recs)).take 5 :=
    (Option.some.inj h).symm
  have hsorted : List.Sorted topRel (List.insertionSort topRel (campaign_stats recs)) :=
    List.sorted_insertionSort topRel _
  have hperm : (List.insertionSort topRel (campaign_stats recs)).Perm (campaign_stats recs) :=
    List.perm_insertionSort topRel _
  subst htops
  refine ⟨?_, ?_, ?_, ?_, ?_⟩
  · rw [List.length_take, hperm.length_eq]
  · exact List.Pairwise.sublist (List.take_sublist 5 _) hsorted
  · intro hlen
    have heq : (List.insertionSort topRel (campaign_stats recs)).take 5 =
        List.insertionSort topRel (campaign_stats recs) :=
      List.take_of_length_le (by rw [hperm.length_eq]; exact hlen)
    rw [heq]
    exact hperm
  · intro x hx
    exact hperm.mem_iff.mp (List.take_subset 5 _ hx)
  · intro x hx y hy hyn
    have hys : y ∈ List.insertionSort topRel (campaign_stats recs) := hperm.mem_iff.mpr hy
    rw [← List.take_append_drop 5 (List.insertionSort topRel (campaign_stats recs))] at hys
    rcases List.mem_append.mp hys with h' | h'
    · exact absurd h' hyn
    · have hpw : List.Pairwise topRel
          ((List.insertionSort topRel (campaign_stats recs)).take 5 ++
            (List.insertionSort topRel (campaign_stats recs)).drop 5) := by
        rw [List.take_append_drop]
        exact hsorted
      rcases (List.pairwise_append.mp hpw).2.2 x hx y h' with hlt | ⟨heq, _⟩
      · exact le_of_lt hlt
      · exact le_of_eq heq.symm

theorem c4_rollupA : rollupFor [revenueTieRecB, revenueTieRecA] "A" =
    { roas := some 2, revenue := 100, spend := 50 } := by
  have hBA : ((("B" : String)) == "A") = false := by decide
  have hAA : ((("A" : String)) == "A") = true := by decide
  have hfilter : [revenueTieRecB, revenueTieRecA].filter (fun r => r.campaign == "A") =
      [revenueTieRecA] := by
    simp [List.filter_cons, revenueTieRecB, revenueTieRecA, hBA, hAA]
  have hvals : [revenueTieRecA].filterMap (fun r => r.roas) = [(2 : ℚ)] := by
    simp [revenueTieRecA]
  have hrev : [revenueTieRecA].filterMap (fun r => r.revenue) = [(100 : ℚ)] := by
    simp [revenueTieRecA]
  have hspd : [revenueTieRecA].map (fun r => r.spend) = [(50 : ℚ)] := by
    simp [revenueTieRecA]
  unfold rollupFor
  rw [hfilter]
  simp only [hvals, hrev, hspd]
  norm_num [round2, roundHalfEven, CampaignRollup.mk.injEq]

theorem c4_rollupB : rollupFor [revenueTieRecB, revenueTieRecA] "B" =
    { roas := some 1, revenue := 100, spend := 100 } := by
  have hBB : ((("B" : String)) == "B") = true := by decide
  have hAB : ((("A" : String)) == "B") = false := by decide
  have hfilter : [revenueTieRecB, revenueTieRecA].filter (fun r => r.campaign == "B") =
      [revenueTieRecB] := by
    simp [List.filter_cons, revenueTieRecB, revenueTieRecA, hBB, hAB]
  have hvals : [revenueTieRecB].filterMap (fun r => r.roas) = [(1 : ℚ)] := by
    simp [revenueTieRecB]
  have hrev : [revenueTieRecB].filterMap (fun r => r.revenue) = [(100 : ℚ)] := by
    simp [revenueTieRecB]
  have hspd : [revenueTieRecB].map (fun r => r.spend) = [(100 : ℚ)] := by
    simp [revenueTieRecB]
  unfold rollupFor
  rw [hfilter]
  simp only [hvals, hrev, hspd]
  norm_num [round2, roundHalfEven, CampaignRollup.mk.injEq]

theorem c4_stats : campaign_stats [revenueTieRecB, revenueTieRecA] =
    [("A", { roas := some 2, revenue := 100, spend := 50 }),
     ("B", { roas := some 1, revenue := 100, spend := 100 })] := by
  have hsorted : sortedCampaigns [revenueTieRecB, revenueTieRecA] = ["A", "B"] := by decide
  unfold campaign_stats
  rw [hsorted, List.map_cons, List.map_cons, List.map_nil, c4_rollupA, c4_rollupB]

theorem c4_top5 :
    (calculate_summary_stats [revenueTieRecB, revenueTieRecA]).top_5_campaigns =
      some [("A", { roas := some 2, revenue := 100, spend := 50 }),
            ("B", { roas := some 1, revenue := 100, spend := 100 })] := by
  have hrel : topRel ("A", { roas := some 2, revenue := 100, spend := 50 })
      ("B", { roas := some 1, revenue := 100, spend := 100 }) := Or.inr ⟨rfl, by decide⟩
  have hsort : List.insertionSort topRel
      [(("A" : String), ({ roas := some 2, revenue := 100, spend := 50 } : CampaignRollup)),
       ("B", { roas := some 1, revenue := 100, spend := 100 })] =
      [("A", { roas := some 2, revenue := 100, spend := 50 }),
       ("B", { roas := some 1, revenue := 100, spend := 100 })] := by
    simp only [List.insertionSort, List.orderedInsert]
    rw [if_pos hrel]
  rw [top_5_def, c4_stats, if_neg (by simp)]
  unfold top5
  rw [hsort]
  rfl

/-- Counterexample to claim C4 as stated: campaigns `B` (first in record
order) and `A` tie on summed revenue 100, yet the top-5 list places `A`
first — `nlargest` keeps the earlier row of the key-sorted frame on
ties, i.e. the lexicographically smaller key, not the first-appearing
campaign. -/
theorem C4_counterexample :
    clean_and_prepare_data revenueTieTable (check_data_columns revenueTieTable.cols) =
      .ok [revenueTieRecB, revenueTieRecA] ∧
    campaignsInOrder [revenueTieRecB, revenueTieRecA] = ["B", "A"] ∧
    (rollupFor [revenueTieRecB, revenueTieRecA] "A").revenue =
      (rollupFor [revenueTieRecB, revenueTieRecA] "B").revenue ∧
    (calculate_summary_stats [revenueTieRecB, revenueTieRecA]).top_5_campaigns =
      some [("A", { roas := some 2, revenue := 100, spend := 50 }),
            ("B", { roas := some 1, revenue := 100, spend := 100 })] ∧
    ("A" : String) ≠ "B" :=
  ⟨clean_revenueTie, by decide, by rw [c4_rollupA, c4_rollupB], c4_top5, by decide⟩

/-- Witness for the amended C4 at the tied dataset: the two-campaign
frame gives a top-5 list of length `min 5 2 = 2`, sorted by `topRel` and
containing exactly the two campaigns. -/
theorem C4_witness :
    ([("A", { roas := some 2, revenue := 100, spend := 50 }),
      ("B", { roas := some 1, revenue := 100, spend := 100 })] :
        List (String × CampaignRollup)).length =
      min 5 (campaign_stats [revenueTieRecB, revenueTieRecA]).length ∧
    List.Sorted topRel
      [(("A" : String), ({ roas := some 2, revenue := 100, spend := 50 } : CampaignRollup)),
       ("B", { roas := some 1, revenue := 100, spend := 100 })] ∧
    ([("A", { roas := some 2, revenue := 100, spend := 50 }),
      ("B", { roas := some 1, revenue := 100, spend := 100 })] :
        List (String × CampaignRollup)).Perm
      (campaign_stats [revenueTieRecB, revenueTieRecA]) := by
  obtain ⟨h1, h2, h3, _, _⟩ :=
    C4_top5_selection [revenueTieRecB, revenueTieRecA] _ c4_top5
  exact ⟨h1, h2, h3 (by simp [c4_stats])⟩
